import Mathlib

/-!
# generic-proxy: the HTTP proxy handler and the start-up configuration of `server.go`

A shallow embedding of `src/server.go`.

* Go strings are Lean `String`s; where the code looks at single bytes the model
  looks at the characters of `String.data`.
* A Go `error` is represented by its message (`err.Error()`), and a call that
  can fail returns `Except String _`.
* The parts of `net/http`, `encoding/base64`, `net/textproto` and `go-socks5`
  that `server.go` calls are modelled next to the code that calls them.
* The world outside the handler (the dialer, the outbound transport) is a
  parameter `Env`; what the handler does to the world is returned as a list of
  `Effect`s in program order.
-/

set_option autoImplicit false

namespace GenericProxy

/-! ## Configuration (`params`) and the handler type -/

/-- The `params` struct of `server.go`, lines 15-20. -/
structure params where
  User : String
  Password : String
  Port : String
  AllowedDestFqdn : String
  deriving DecidableEq, Repr

/-- The `httpProxyHandler` struct of `server.go`, lines 23-27. -/
structure httpProxyHandler where
  auth : Bool
  user : String
  password : String
  deriving DecidableEq, Repr

/-! ## `net/textproto`: canonical header keys -/

/-- The token bytes of a header field name (`validHeaderFieldByte`):
letters, digits and the fifteen punctuation bytes of RFC 7230 `tchar`,
given here by their codes. -/
def validHeaderFieldByte (c : Char) : Bool :=
  c.isAlphanum ||
    [33, 35, 36, 37, 38, 39, 42, 43, 45, 46, 94, 95, 96, 124, 126].contains c.toNat

/-- The canonicalising loop of `canonicalMIMEHeaderKey`: upper case for the
first letter and for a letter after a dash, lower case for the others. -/
def canonicalLoop : Bool → List Char → List Char
  | _, [] => []
  | upper, c :: cs =>
    let c1 :=
      if upper && c.isLower then c.toUpper
      else if !upper && c.isUpper then c.toLower
      else c
    c1 :: canonicalLoop (c1 == '-') cs

/-- `textproto.CanonicalMIMEHeaderKey`: a key with a byte that is not a token
byte is returned unchanged, any other key is put in canonical case. -/
def CanonicalMIMEHeaderKey (s : String) : String :=
  if s.data.all validHeaderFieldByte then String.mk (canonicalLoop true s.data) else s

/-! ## `net/http`: `Header` -/

/-- `http.Header`, a `map[string][]string`, as an association list. The order
of the entries is the order in which a `range` loop visits them. -/
abbrev Header := List (String × List String)

/-- Map indexing `h[key]`: the values stored under exactly `key`, `nil` (the
empty list) when the key is absent. -/
def Header.index : Header → String → List String
  | [], _ => []
  | (k, vs) :: h, key => if k = key then vs else Header.index h key

/-- Map deletion `delete(h, key)`. -/
def Header.delete : Header → String → Header
  | [], _ => []
  | (k, vs) :: h, key =>
    if k = key then Header.delete h key else (k, vs) :: Header.delete h key

/-- Map assignment `h[key] = vs`. -/
def Header.assign (h : Header) (key : String) (vs : List String) : Header :=
  (key, vs) :: h.delete key

/-- `Header.Add`: append `value` to the values of the canonical form of `key`. -/
def Header.Add (h : Header) (key value : String) : Header :=
  let k := CanonicalMIMEHeaderKey key
  h.assign k (h.index k ++ [value])

/-- `Header.Set`: replace the values of the canonical form of `key` by `[value]`. -/
def Header.Set (h : Header) (key value : String) : Header :=
  h.assign (CanonicalMIMEHeaderKey key) [value]

/-- `Header.Del`: delete the canonical form of `key`. -/
def Header.Del (h : Header) (key : String) : Header :=
  h.delete (CanonicalMIMEHeaderKey key)

/-- `Header.Get`: the first value of the canonical form of `key`, `""` if none. -/
def Header.Get (h : Header) (key : String) : String :=
  match h.index (CanonicalMIMEHeaderKey key) with
  | [] => ""
  | v :: _ => v

/-- The keys of a header map, in iteration order. -/
def Header.keys (h : Header) : List String := h.map Prod.fst

/-! ## `encoding/base64`: `StdEncoding.DecodeString` -/

/-- The value of a character of the standard base64 alphabet. -/
def base64Value (c : Char) : Option Nat :=
  let n := c.toNat
  if 65 ≤ n ∧ n ≤ 90 then some (n - 65)
  else if 97 ≤ n ∧ n ≤ 122 then some (n - 71)
  else if 48 ≤ n ∧ n ≤ 57 then some (n + 4)
  else if n = 43 then some 62
  else if n = 47 then some 63
  else none

/-- Decode the four-character quanta of a padded base64 text into bytes:
`xx==` gives one byte, `xxx=` two, `xxxx` three; padding is accepted only in
the last quantum and a text that is not a whole number of quanta is corrupt. -/
def decodeQuanta : List Char → Option (List Nat)
  | [] => some []
  | a :: b :: c :: d :: rest =>
    match base64Value a, base64Value b with
    | some x, some y =>
      if c = '=' then
        if d = '=' ∧ rest = [] then some [(x * 4 + y / 16) % 256] else none
      else
        match base64Value c with
        | none => none
        | some z =>
          if d = '=' then
            if rest = [] then some [(x * 4 + y / 16) % 256, (y * 16 + z / 4) % 256] else none
          else
            match base64Value d with
            | none => none
            | some v =>
              match decodeQuanta rest with
              | none => none
              | some bytes =>
                some ((x * 4 + y / 16) % 256 :: (y * 16 + z / 4) % 256
                  :: (z * 64 + v) % 256 :: bytes)
    | _, _ => none
  | _ => none

/-- `base64.StdEncoding.DecodeString`: carriage returns and line feeds are
skipped, the rest is decoded quantum by quantum; `none` is the
`CorruptInputError`. -/
def DecodeString (s : String) : Option String :=
  match decodeQuanta (s.data.filter (fun c => c ≠ '\r' ∧ c ≠ '\n')) with
  | none => none
  | some bytes => some (String.mk (bytes.map Char.ofNat))

/-! ## `net/http`: `Request` and `BasicAuth` -/

/-- The fields of `http.Request` that `server.go` reads. -/
structure Request where
  Method : String
  Host : String
  Header : Header
  deriving DecidableEq, Repr

/-- The constant `http.MethodConnect`. -/
def MethodConnect : String := "CONNECT"

/-- `strings.Cut(s, ":")` on the characters of `s`: the text before and after
the first colon, `none` when there is no colon. -/
def cutColon : List Char → Option (List Char × List Char)
  | [] => none
  | c :: cs =>
    if c = ':' then some ([], cs)
    else
      match cutColon cs with
      | none => none
      | some (before, after) => some (c :: before, after)

/-- ASCII case-insensitive equality (`ascii.EqualFold`). -/
def EqualFold (s t : List Char) : Bool :=
  s.map Char.toLower == t.map Char.toLower

/-- `parseBasicAuth` of `net/http`: the value must start with `Basic `
(in any case), the rest must be base64 of `user:pass`. -/
def parseBasicAuth (auth : String) : String × String × Bool :=
  if auth.data.length < 6 || !EqualFold (auth.data.take 6) "Basic ".data then
    ("", "", false)
  else
    match DecodeString (String.mk (auth.data.drop 6)) with
    | none => ("", "", false)
    | some cs =>
      match cutColon cs.data with
      | none => ("", "", false)
      | some (username, password) => (String.mk username, String.mk password, true)

/-- `(*http.Request).BasicAuth`: the credentials of the request's
`Authorization` header. -/
def Request.BasicAuth (r : Request) : String × String × Bool :=
  let auth := r.Header.Get "Authorization"
  if auth = "" then ("", "", false) else parseBasicAuth auth

/-! ## `net/http`: `ResponseWriter`, `WriteHeader`, `Write`, `Error` -/

/-- A network connection, named by the address it is connected to. -/
structure Conn where
  addr : String
  deriving DecidableEq, Repr

/-- What the type assertion `w.(http.Hijacker)` and the call `Hijack()` give
for a response writer. -/
inductive Hijacker where
  /-- The writer does not implement `http.Hijacker`. -/
  | unsupported
  /-- The writer implements it and `Hijack()` returns the error `err`. -/
  | fails (err : String)
  /-- The writer implements it and `Hijack()` returns `clientConn`. -/
  | ok (clientConn : Conn)
  deriving DecidableEq, Repr

/-- `strconv.ParseUint(s, 10, 64)` on the characters of `s`, before the range
check: one or more decimal digits. -/
def parseDigits (ds : List Char) : Option Nat :=
  if ds = [] ∨ ¬ ds.all Char.isDigit then none
  else some (ds.foldl (fun n c => 10 * n + (c.toNat - 48)) 0)

/-- The `Content-Length` value as `WriteHeader` reads it:
`strconv.ParseInt(cl, 10, 64)` must succeed (an optional sign, decimal digits,
the range of `int64`) with a result that is not negative. -/
def parseContentLength (cl : String) : Option Nat :=
  match cl.data with
  | '+' :: ds => (parseDigits ds).bind (fun n => if n < 2 ^ 63 then some n else none)
  | '-' :: ds => (parseDigits ds).bind (fun n => if n = 0 then some 0 else none)
  | ds => (parseDigits ds).bind (fun n => if n < 2 ^ 63 then some n else none)

/-- The unexported `Header.get`: the first value stored under exactly `key`,
`""` if none. -/
def Header.get (h : Header) (key : String) : String :=
  match h.index key with
  | [] => ""
  | v :: _ => v

/-- A response once `WriteHeader` has fixed it: the status code, the header
map at that moment (the map the server writes the response head from; the
server may add headers of its own, such as `Date`), the declared content
length if there is one, and the number of body bytes the handler has tried to
write. -/
structure Fixed where
  status : Nat
  header : Header
  contentLength : Option Nat
  written : Nat
  deriving DecidableEq, Repr

/-- An `http.ResponseWriter`, as a recorder of what the handler does to it.
`header` is the map `w.Header()` returns. `response` is set by the first
`WriteHeader` call that fixes the response; later changes of `header` are
not part of the response. `informational` lists the 1xx responses written
before that. `calls` lists the codes of all `WriteHeader` calls in order, the
ignored ones included. `body` is what has been written. -/
structure ResponseWriter where
  header : Header
  response : Option Fixed
  informational : List (Nat × Header)
  body : String
  calls : List Nat
  hijacker : Hijacker
  deriving DecidableEq, Repr

/-- The field `wroteHeader` of `http.response`: the response has been fixed. -/
def ResponseWriter.wroteHeader (w : ResponseWriter) : Bool :=
  w.response.isSome

/-- The field `status` of `http.response`: the status code of the response,
`0` as long as none has been fixed. -/
def ResponseWriter.status (w : ResponseWriter) : Nat :=
  match w.response with
  | some fixed => fixed.status
  | none => 0

/-- The header map fixed together with the status, empty as long as no
response has been fixed. -/
def ResponseWriter.sent (w : ResponseWriter) : Header :=
  match w.response with
  | some fixed => fixed.header
  | none => []

/-- The state of a handler that has panicked: the writer at that moment and
the code of the message `invalid WriteHeader code`. The server recovers the
panic and closes the connection; nothing more is written. -/
structure Panicked where
  w : ResponseWriter
  code : Nat
  deriving DecidableEq, Repr

/-- `w.Header().Add(key, value)`. -/
def ResponseWriter.addHeader (w : ResponseWriter) (key value : String) : ResponseWriter :=
  { w with header := w.header.Add key value }

/-- `w.Header().Set(key, value)`. -/
def ResponseWriter.setHeader (w : ResponseWriter) (key value : String) : ResponseWriter :=
  { w with header := w.header.Set key value }

/-- `w.Header().Del(key)`. -/
def ResponseWriter.delHeader (w : ResponseWriter) (key : String) : ResponseWriter :=
  { w with header := w.header.Del key }

/-- The last step of `WriteHeader`: the status and the header map are fixed;
a `Content-Length` header that parses becomes the declared length of the
body, one that does not is deleted from the handler's map. -/
def ResponseWriter.fixResponse (w : ResponseWriter) (code : Nat) : ResponseWriter :=
  let cl := w.header.get "Content-Length"
  if cl = "" then
    { w with
      response := some { status := code, header := w.header, contentLength := none,
                         written := 0 }
      calls := w.calls ++ [code] }
  else
    match parseContentLength cl with
    | some v =>
      { w with
        response := some { status := code, header := w.header, contentLength := some v,
                           written := 0 }
        calls := w.calls ++ [code] }
    | none =>
      { w with
        header := w.header.Del "Content-Length"
        response := some { status := code, header := w.header, contentLength := none,
                           written := 0 }
        calls := w.calls ++ [code] }

/-- `(*response).WriteHeader(code)`, in the order of its checks: a call after
the response is fixed is superfluous and changes nothing of the response;
otherwise `checkWriteHeaderCode` panics for a code below 100 or above 999; an
informational code (1xx other than 101) is written at once with the current
headers and leaves the response open; any other code fixes the response. -/
def ResponseWriter.WriteHeader (w : ResponseWriter) (code : Nat) :
    Except Panicked ResponseWriter :=
  if w.wroteHeader then
    .ok { w with calls := w.calls ++ [code] }
  else if code < 100 ∨ code > 999 then
    .error { w := { w with calls := w.calls ++ [code] }, code := code }
  else if 100 ≤ code ∧ code ≤ 199 ∧ code ≠ 101 then
    .ok { w with informational := w.informational ++ [(code, w.header)],
                 calls := w.calls ++ [code] }
  else
    .ok (w.fixResponse code)

/-- The constants `http.StatusOK` and the other status codes `server.go` names. -/
def StatusOK : Nat := 200

/-- The constant `http.StatusProxyAuthRequired`. -/
def StatusProxyAuthRequired : Nat := 407

/-- The constant `http.StatusInternalServerError`. -/
def StatusInternalServerError : Nat := 500

/-- The constant `http.StatusServiceUnavailable`. -/
def StatusServiceUnavailable : Nat := 503

/-- `bodyAllowedForStatus`: a 1xx, 204 or 304 response has no body. -/
def bodyAllowedForStatus (status : Nat) : Bool :=
  if 100 ≤ status ∧ status ≤ 199 then false
  else if status = 204 then false
  else if status = 304 then false
  else true

/-- The message of `http.ErrBodyNotAllowed`. -/
def ErrBodyNotAllowed : String :=
  "http: request method or response status code does not allow body"

/-- The message of `http.ErrContentLength`. -/
def ErrContentLength : String :=
  "http: wrote more than the declared Content-Length"

/-- The part of `(*response).write` after the header is written: an empty
write does nothing; a write to a response whose status allows no body fails
with `ErrBodyNotAllowed`; the bytes are counted, and a write that takes the
count over the declared content length fails with `ErrContentLength`;
otherwise the bytes are appended to the body. The second component is the
error returned. -/
def writeFixed (w : ResponseWriter) (fixed : Fixed) (p : String) :
    ResponseWriter × Option String :=
  if p = "" then (w, none)
  else if bodyAllowedForStatus fixed.status then
    let counted : Fixed := { fixed with written := fixed.written + p.length }
    match fixed.contentLength with
    | some n =>
      if counted.written > n then
        ({ w with response := some counted }, some ErrContentLength)
      else
        ({ w with response := some counted, body := w.body ++ p }, none)
    | none => ({ w with response := some counted, body := w.body ++ p }, none)
  else (w, some ErrBodyNotAllowed)

/-- `(*response).Write(p)`: a write before the response is fixed first does
`WriteHeader(http.StatusOK)`. -/
def ResponseWriter.Write (w : ResponseWriter) (p : String) :
    Except Panicked (ResponseWriter × Option String) :=
  match (if w.wroteHeader then .ok w else w.WriteHeader StatusOK) with
  | .error e => .error e
  | .ok w1 =>
    match w1.response with
    | some fixed => .ok (writeFixed w1 fixed p)
    | none => .ok (w1, none)

/-- `http.Error(w, error, code)`: delete `Content-Length`, set the two content
headers, write the status, then `fmt.Fprintln(w, error)`, whose error is
dropped. -/
def Error (w : ResponseWriter) (error : String) (code : Nat) :
    Except Panicked ResponseWriter :=
  let w1 := w.delHeader "Content-Length"
  let w2 := w1.setHeader "Content-Type" "text/plain; charset=utf-8"
  let w3 := w2.setHeader "X-Content-Type-Options" "nosniff"
  match w3.WriteHeader code with
  | .error e => .error e
  | .ok w4 =>
    match w4.Write (error ++ "\n") with
    | .error e => .error e
    | .ok (w5, _) => .ok w5

/-- A response writer as the server hands it to a handler: nothing set,
nothing written. -/
def newResponseWriter (hijacker : Hijacker) : ResponseWriter :=
  { header := [], response := none, informational := [], body := "",
    calls := [], hijacker := hijacker }

/-- A writer the handler has not touched yet: no status written, no
`WriteHeader` call made, no body byte written. -/
def ResponseWriter.unused (w : ResponseWriter) : Prop :=
  w.wroteHeader = false ∧ w.calls = [] ∧ w.body = ""

instance (w : ResponseWriter) : Decidable w.unused := by
  unfold ResponseWriter.unused
  infer_instance

/-! ## The outside world -/

/-- An `io.ReadCloser` response body: the chunks successive `Read` calls
deliver, and the error (if any) that ends the stream instead of `io.EOF`. -/
structure Body where
  chunks : List String
  err : Option String
  deriving DecidableEq, Repr

/-- The fields of `http.Response` that `handleHTTP` reads. -/
structure Response where
  StatusCode : Nat
  Header : Header
  Body : Body
  deriving DecidableEq, Repr

/-- The environment of a handler call: `Dial network addr` is `net.Dial` and
`RoundTrip` is `http.DefaultTransport.RoundTrip`. -/
structure Env where
  Dial : String → String → Except String Conn
  RoundTrip : Request → Except String Response

/-- What a handler does to the outside world. -/
inductive Effect where
  /-- The call `net.Dial(network, addr)`. -/
  | dial (network addr : String)
  /-- The call `http.DefaultTransport.RoundTrip(r)`. -/
  | roundTrip (r : Request)
  /-- The call `hijacker.Hijack()`. -/
  | hijack
  /-- The deferred `targetConn.Close()`. -/
  | closeTarget (c : Conn)
  /-- The deferred `resp.Body.Close()`. -/
  | closeBody
  deriving DecidableEq, Repr

/-- The pair of connections of an established CONNECT tunnel. -/
structure Tunnel where
  clientConn : Conn
  targetConn : Conn
  deriving DecidableEq, Repr

/-- The result of a handler call: the response writer afterwards, the effects
in program order (deferred calls run on a panic too), when the handler
reached the relay of lines 68-69 the tunnel it relays on (the relay itself is
`relayStep` below), and when the handler panicked the code of the message
`invalid WriteHeader code`. -/
structure Outcome where
  w : ResponseWriter
  effects : List Effect
  tunnel : Option Tunnel
  panicked : Option Nat
  deriving DecidableEq, Repr

/-- The outcome of a handler whose last writer call gave `result` and which
set up no tunnel. -/
def Outcome.ofResult (result : Except Panicked ResponseWriter) (effects : List Effect) :
    Outcome :=
  match result with
  | .ok w => { w := w, effects := effects, tunnel := none, panicked := none }
  | .error e => { w := e.w, effects := effects, tunnel := none, panicked := some e.code }

/-- The loop of `io.Copy(w, body)`: every non-empty chunk read is written to
`w`; the copy stops at the first write that fails. -/
def copyChunks : ResponseWriter → List String → Except Panicked ResponseWriter
  | w, [] => .ok w
  | w, chunk :: rest =>
    if chunk = "" then copyChunks w rest
    else
      match w.Write chunk with
      | .error e => .error e
      | .ok (w1, some _) => .ok w1
      | .ok (w1, none) => copyChunks w1 rest

/-- `io.Copy(w, body)`: the copy ends at end of stream, at the read error of
the body, or at a write error; `handleHTTP` discards its result. -/
def Copy (w : ResponseWriter) (body : Body) : Except Panicked ResponseWriter :=
  copyChunks w body.chunks

/-- All the bytes a body delivers, in order. -/
def Body.bytes (body : Body) : String :=
  String.mk (body.chunks.map String.data).flatten

/-! ## The handler (`server.go`, lines 29-87) -/

/-- `handleConnect`, lines 47-66: dial, on failure 503; write 200; take the
client connection over, on failure an error response. On success the handler
goes on to the relay, which is modelled by `relayStep`. -/
def handleConnect (env : Env) (w : ResponseWriter) (r : Request) : Outcome :=
  match env.Dial "tcp" r.Host with
  | .error err =>
    Outcome.ofResult (Error w err StatusServiceUnavailable) [.dial "tcp" r.Host]
  | .ok targetConn =>
    match w.WriteHeader StatusOK with
    | .error e =>
      Outcome.ofResult (.error e) [.dial "tcp" r.Host, .closeTarget targetConn]
    | .ok w1 =>
      match w1.hijacker with
      | .unsupported =>
        Outcome.ofResult (Error w1 "Hijacking not supported" StatusInternalServerError)
          [.dial "tcp" r.Host, .closeTarget targetConn]
      | .fails err =>
        Outcome.ofResult (Error w1 err StatusServiceUnavailable)
          [.dial "tcp" r.Host, .hijack, .closeTarget targetConn]
      | .ok clientConn =>
        { w := w1, effects := [.dial "tcp" r.Host, .hijack],
          tunnel := some { clientConn := clientConn, targetConn := targetConn },
          panicked := none }

/-- The two nested `range` loops of `handleHTTP`, lines 80-84. -/
def copyHeader (w : ResponseWriter) (h : Header) : ResponseWriter :=
  h.foldl (fun acc kv => kv.2.foldl (fun acc2 value => acc2.addHeader kv.1 value) acc) w

/-- `handleHTTP`, lines 72-87. A panic of `w.WriteHeader(resp.StatusCode)` at
line 85 ends the handler before the copy of line 86; the deferred
`resp.Body.Close()` still runs. -/
def handleHTTP (env : Env) (w : ResponseWriter) (r : Request) : Outcome :=
  match env.RoundTrip r with
  | .error err =>
    Outcome.ofResult (Error w err StatusServiceUnavailable) [.roundTrip r]
  | .ok resp =>
    let w1 := copyHeader w resp.Header
    match w1.WriteHeader resp.StatusCode with
    | .error e => Outcome.ofResult (.error e) [.roundTrip r, .closeBody]
    | .ok w2 => Outcome.ofResult (Copy w2 resp.Body) [.roundTrip r, .closeBody]

/-- The condition of line 33, `!ok || user != h.user || pass != h.password`,
on a result `(user, pass, ok)` of `r.BasicAuth()`. -/
def credentialsRejected (h : httpProxyHandler) (presented : String × String × Bool) : Bool :=
  match presented with
  | (user, pass, ok) => !ok || user != h.user || pass != h.password

/-- Lines 32-33: the credentials of the request are read and rejected. -/
def authRejected (h : httpProxyHandler) (r : Request) : Bool :=
  credentialsRejected h r.BasicAuth

/-- `ServeHTTP`, lines 29-45. -/
def ServeHTTP (h : httpProxyHandler) (env : Env) (w : ResponseWriter) (r : Request) : Outcome :=
  if h.auth && authRejected h r then
    let w1 := w.setHeader "Proxy-Authenticate" "Basic"
    Outcome.ofResult (Error w1 "Proxy authentication required" StatusProxyAuthRequired) []
  else if r.Method = MethodConnect then
    handleConnect env w r
  else
    handleHTTP env w r

/-! ## The relay of an established tunnel (`server.go`, lines 66-70)

After the hijack, `handleConnect` starts `go io.Copy(targetConn, clientConn)`
and then runs `io.Copy(clientConn, targetConn)` itself. The function returns,
and its deferred `clientConn.Close()` and `targetConn.Close()` run, when the
second copy returns. The first copy runs in its own goroutine and nothing
waits for it. -/

/-- The two things that can happen to a running relay. -/
inductive RelayEvent where
  /-- The copy of line 68 (client to target, in the goroutine) returns:
  the client closed or reset its side, or a write to the target failed. -/
  | clientToTargetEnds
  /-- The copy of line 69 (target to client, in the handler) returns:
  the target closed or reset its side, or a write to the client failed. -/
  | targetToClientEnds
  deriving DecidableEq, Repr

/-- The state of a relay: which copies have returned, whether
`handleConnect` has returned, and which connections are closed. -/
structure RelayState where
  tunnel : Tunnel
  clientToTargetDone : Bool
  targetToClientDone : Bool
  returned : Bool
  clientClosed : Bool
  targetClosed : Bool
  deriving DecidableEq, Repr

/-- The relay right after lines 66-68: both copies running, nothing closed. -/
def relayStart (t : Tunnel) : RelayState :=
  { tunnel := t, clientToTargetDone := false, targetToClientDone := false,
    returned := false, clientClosed := false, targetClosed := false }

/-- One event. When the goroutine's copy returns, the goroutine ends and its
result is dropped. When the copy of line 69 returns, `handleConnect` returns
and the deferred calls close the client connection and the target connection. -/
def relayStep (s : RelayState) : RelayEvent → RelayState
  | .clientToTargetEnds => { s with clientToTargetDone := true }
  | .targetToClientEnds =>
    { s with targetToClientDone := true, returned := true,
             clientClosed := true, targetClosed := true }

/-- The relay after a sequence of events. -/
def relayRun (t : Tunnel) (events : List RelayEvent) : RelayState :=
  events.foldl relayStep (relayStart t)

/-! ## `go-socks5`: the parts of the configuration `main` fills in -/

namespace socks5

/-- `socks5.StaticCredentials`, a `map[string]string`. -/
abbrev StaticCredentials := List (String × String)

/-- `StaticCredentials.Valid`: the user is a key of the map and the password
is the value stored for it. -/
def StaticCredentials.Valid (s : StaticCredentials) (user password : String) : Bool :=
  match s.lookup user with
  | none => false
  | some pass => password == pass

/-- The authenticators of `go-socks5`. -/
inductive Authenticator where
  | NoAuthAuthenticator
  | UserPassAuthenticator (Credentials : StaticCredentials)
  deriving DecidableEq, Repr

/-- `socks5.AddrSpec`: the destination of a request. -/
structure AddrSpec where
  FQDN : String
  Port : Nat
  deriving DecidableEq, Repr

/-- The fields of `socks5.Request` a rule set reads: the command byte
(1 CONNECT, 2 BIND, 3 ASSOCIATE) and the destination. -/
structure Request where
  Command : Nat
  DestAddr : AddrSpec
  deriving DecidableEq, Repr

/-- `socks5.RuleSet`: the method `Allow`. -/
abbrev RuleSet := Request → Bool

/-- `socks5.Config`, the fields `main` and `New` touch; `none` and `[]` are
the zero values. -/
structure Config where
  AuthMethods : List Authenticator
  Credentials : Option StaticCredentials
  Rules : Option RuleSet

/-- `socks5.PermitAll()`: a `PermitCommand` with the three commands enabled. -/
def PermitAll : RuleSet :=
  fun req => req.Command = 1 || req.Command = 2 || req.Command = 3

/-- `socks5.New`: the defaults it fills in. With no authentication method
configured, the method is username/password when `Credentials` is set and
no-auth otherwise; with no rule set configured, the rule set is `PermitAll()`. -/
def New (conf : Config) : Config :=
  { conf with
    AuthMethods :=
      if conf.AuthMethods.length = 0 then
        match conf.Credentials with
        | some creds => [.UserPassAuthenticator creds]
        | none => [.NoAuthAuthenticator]
      else conf.AuthMethods
    Rules :=
      match conf.Rules with
      | none => some PermitAll
      | some rules => some rules }

/-- The decision of the rule set of a server made by `New`. -/
def Config.Allow (conf : Config) (req : Request) : Bool :=
  match conf.Rules with
  | none => false
  | some rules => rules req

end socks5

/-! ## The destination filter -/

/-- The executable glob matcher: `*` tries every suffix of the host, `?`
takes one character, any other pattern character takes one character equal
to it up to ASCII case. -/
def globMatch : List Char → List Char → Bool
  | [], host => host.isEmpty
  | a :: p, host =>
    if a = '*' then
      (host.tails).any (fun suffix => globMatch p suffix)
    else
      match host with
      | [] => false
      | c :: rest => (a = '?' || a.toLower == c.toLower) && globMatch p rest

/-- What it means for a host to glob-match a pattern, case-insensitively:
`*` stands for any run of characters (the empty run too), `?` for any single
character, and a literal for itself up to ASCII case. -/
inductive GlobMatches : List Char → List Char → Prop where
  | done : GlobMatches [] []
  | star (p run rest : List Char) :
      GlobMatches p rest → GlobMatches ('*' :: p) (run ++ rest)
  | single (p : List Char) (c : Char) (rest : List Char) :
      GlobMatches p rest → GlobMatches ('?' :: p) (c :: rest)
  | literal (a : Char) (p : List Char) (c : Char) (rest : List Char) :
      a ≠ '*' → a ≠ '?' → a.toLower = c.toLower →
      GlobMatches p rest → GlobMatches (a :: p) (c :: rest)

/-- Modelled from the spec: `PermitDestAddrPattern`, which `main` calls at line
114 and whose definition is not in `server.go`. Section 4.4 of the spec gives
its contract: glob-style matching of the destination host against the
pattern, case-insensitive, the port not part of the match. -/
def PermitDestAddrPattern (pattern : String) : socks5.RuleSet :=
  fun req => globMatch pattern.data req.DestAddr.FQDN.data

/-! ## `main` (`server.go`, lines 89-136): what is configured before serving -/

/-- What `main` has built when it starts serving: the SOCKS5 configuration,
the server `socks5.New` makes from it (given by the configuration with the
defaults filled in), and the HTTP handler. -/
structure Servers where
  socks5conf : socks5.Config
  socks5Server : socks5.Config
  httpProxy : httpProxyHandler

/-- Lines 102-111: the `auth` flag and the authentication methods. -/
def configureAuth (cfg : params) (socks5conf : socks5.Config) : Bool × socks5.Config :=
  if cfg.User ++ cfg.Password ≠ "" then
    let creds : socks5.StaticCredentials := [(cfg.User, cfg.Password)]
    let cator := socks5.Authenticator.UserPassAuthenticator creds
    (true, { socks5conf with AuthMethods := [cator] })
  else
    (false, socks5conf)

/-- Lines 113-115: the rule set. -/
def configureRules (cfg : params) (socks5conf : socks5.Config) : socks5.Config :=
  if cfg.AllowedDestFqdn ≠ "" then
    { socks5conf with Rules := some (PermitDestAddrPattern cfg.AllowedDestFqdn) }
  else
    socks5conf

/-- `main`, from the parsed `cfg` to the two servers (lines 97-136). -/
def main (cfg : params) : Servers :=
  let socks5conf : socks5.Config := { AuthMethods := [], Credentials := none, Rules := none }
  let (auth, socks5conf1) := configureAuth cfg socks5conf
  let socks5conf2 := configureRules cfg socks5conf1
  { socks5conf := socks5conf2,
    socks5Server := socks5.New socks5conf2,
    httpProxy := { auth := auth, user := cfg.User, password := cfg.Password } }

/-! ## Concrete inputs for the examples -/

/-- A configuration with credentials `u` / `p` and the allow pattern
`*.example.com`. -/
def cfgSecured : params :=
  { User := "u", Password := "p", Port := "1080", AllowedDestFqdn := "*.example.com" }

/-- A configuration with no credentials and no allow pattern. -/
def cfgOpen : params :=
  { User := "", Password := "", Port := "1080", AllowedDestFqdn := "" }

/-- A world in which every dial succeeds and every round trip gives a small
page with status 200. -/
def envReachable : Env :=
  { Dial := fun _ addr => .ok { addr := addr },
    RoundTrip := fun _ => .ok
      { StatusCode := 200,
        Header := [("Content-Type", ["text/html"]), ("Set-Cookie", ["a=1", "b=2"])],
        Body := { chunks := ["<html>", "</html>"], err := none } } }

/-- A page with status 200, a declared length of 13 bytes, two cookies and a
body that arrives in two chunks. -/
def pageResponse : Response :=
  { StatusCode := 200,
    Header := [("Content-Length", ["13"]), ("Set-Cookie", ["a=1", "b=2"])],
    Body := { chunks := ["<html>", "</html>"], err := none } }

/-- A world in which every round trip gives `pageResponse`. -/
def envPage : Env :=
  { Dial := fun _ addr => .ok { addr := addr },
    RoundTrip := fun _ => .ok pageResponse }

/-- A world in which a forwarded request gets a response that declares one
byte and delivers five. -/
def envShortLength : Env :=
  { Dial := fun _ addr => .ok { addr := addr },
    RoundTrip := fun _ => .ok
      { StatusCode := 200, Header := [("Content-Length", ["1"])],
        Body := { chunks := ["hello"], err := none } } }

/-- A world in which no target can be contacted. -/
def envUnreachable : Env :=
  { Dial := fun _ _ => .error "dial tcp: connection refused",
    RoundTrip := fun _ => .error "dial tcp: no such host" }

/-- A world in which the target of a forwarded request answers with status
407 and an empty body. -/
def envUpstream407 : Env :=
  { Dial := fun _ addr => .ok { addr := addr },
    RoundTrip := fun _ => .ok
      { StatusCode := 407, Header := [], Body := { chunks := [], err := none } } }

/-- A world in which the target of a forwarded request answers with the
status line `HTTP/1.1 000`, which the transport parses as status code 0, and
the body `hi`. -/
def envUpstream000 : Env :=
  { Dial := fun _ addr => .ok { addr := addr },
    RoundTrip := fun _ => .ok
      { StatusCode := 0, Header := [], Body := { chunks := ["hi"], err := none } } }

/-- A world in which a forwarded request gets a response value whose header
map has the key `x-a`, which is not in canonical form. -/
def envLowerCaseKey : Env :=
  { Dial := fun _ addr => .ok { addr := addr },
    RoundTrip := fun _ => .ok
      { StatusCode := 200, Header := [("x-a", ["1"])],
        Body := { chunks := [], err := none } } }

/-- A world in which the target of a forwarded request answers
`101 Switching Protocols` and then sends the bytes `frame`. -/
def envUpstream101 : Env :=
  { Dial := fun _ addr => .ok { addr := addr },
    RoundTrip := fun _ => .ok
      { StatusCode := 101, Header := [("Upgrade", ["websocket"])],
        Body := { chunks := ["frame"], err := none } } }

/-- The writer of a connection the server can hand over to the handler. -/
def writerHijackable : ResponseWriter :=
  newResponseWriter (.ok { addr := "client" })

/-- A writer that does not implement `http.Hijacker`. -/
def writerPlain : ResponseWriter :=
  newResponseWriter .unsupported

/-- `CONNECT blocked.com:443` with `Proxy-Authorization: Basic dTpw`, where
`dTpw` is the base64 text of `u:p`. -/
def connectWithProxyAuthorization : Request :=
  { Method := "CONNECT", Host := "blocked.com:443",
    Header := [("Proxy-Authorization", ["Basic dTpw"])] }

/-- The same request with the credentials in the `Authorization` header. -/
def connectWithAuthorization : Request :=
  { Method := "CONNECT", Host := "blocked.com:443",
    Header := [("Authorization", ["Basic dTpw"])] }

/-- `CONNECT blocked.com:443` with no credentials at all. -/
def connectPlain : Request :=
  { Method := "CONNECT", Host := "blocked.com:443", Header := [] }

/-- `GET http://example.com/` with no credentials. -/
def getPlain : Request :=
  { Method := "GET", Host := "example.com", Header := [] }

/-- `GET http://blocked.com/` with the credentials `u:p` in the
`Authorization` header. -/
def getBlockedWithAuthorization : Request :=
  { Method := "GET", Host := "blocked.com",
    Header := [("Authorization", ["Basic dTpw"])] }

/-- A SOCKS5 CONNECT request to `blocked.com:443`. -/
def socksConnectBlocked : socks5.Request :=
  { Command := 1, DestAddr := { FQDN := "blocked.com", Port := 443 } }

/-- A SOCKS5 CONNECT request to `Allowed.Example.COM:443`. -/
def socksConnectAllowed : socks5.Request :=
  { Command := 1, DestAddr := { FQDN := "Allowed.Example.COM", Port := 443 } }

/-- The tunnel of `CONNECT blocked.com:443` on the hijackable writer. -/
def tunnelBlocked : Tunnel :=
  { clientConn := { addr := "client" }, targetConn := { addr := "blocked.com:443" } }

/-- `GET http://example.com/` with the credentials `u:p` in the
`Authorization` header. -/
def getWithAuthorization : Request :=
  { Method := "GET", Host := "example.com",
    Header := [("Authorization", ["Basic dTpw"])] }

/-! ## Lemmas on header maps -/

theorem Header.index_delete (h : Header) (k key : String) :
    Header.index (h.delete k) key = if k = key then [] else Header.index h key := by
  induction h with
  | nil => simp [Header.delete, Header.index]
  | cons kv h ih =>
    obtain ⟨k1, vs⟩ := kv
    by_cases h1 : k1 = k
    · subst h1
      by_cases h2 : k1 = key
      · subst h2
        simpa [Header.delete, Header.index] using ih
      · simp [Header.delete, Header.index, h2, ih]
    · by_cases h2 : k1 = key
      · subst h2
        simp [Header.delete, Header.index, h1, Ne.symm h1]
      · simp [Header.delete, Header.index, h1, h2, ih]

theorem Header.index_assign (h : Header) (k : String) (vs : List String) (key : String) :
    Header.index (h.assign k vs) key = if k = key then vs else Header.index h key := by
  by_cases hk : k = key
  · simp [Header.assign, Header.index, hk]
  · simp [Header.assign, Header.index, hk, Header.index_delete]

theorem canonical_ProxyAuthenticate :
    CanonicalMIMEHeaderKey "Proxy-Authenticate" = "Proxy-Authenticate" := by decide

theorem canonical_ContentLength :
    CanonicalMIMEHeaderKey "Content-Length" = "Content-Length" := by decide

theorem canonical_ContentType :
    CanonicalMIMEHeaderKey "Content-Type" = "Content-Type" := by decide

theorem canonical_XContentTypeOptions :
    CanonicalMIMEHeaderKey "X-Content-Type-Options" = "X-Content-Type-Options" := by decide

/-! ## Lemmas on the response writer -/

theorem wroteHeader_false_iff (w : ResponseWriter) :
    w.wroteHeader = false ↔ w.response = none := by
  cases h : w.response <;> simp [ResponseWriter.wroteHeader, h]

theorem status_of_unwritten (w : ResponseWriter) (hw : w.wroteHeader = false) :
    w.status = 0 := by
  rw [wroteHeader_false_iff] at hw
  simp [ResponseWriter.status, hw]

theorem fixResponse_valid (w : ResponseWriter) (code : Nat)
    (hv : w.header.get "Content-Length" = "" ∨
      ∃ n, parseContentLength (w.header.get "Content-Length") = some n) :
    w.fixResponse code =
      { w with
        response := some
          { status := code, header := w.header,
            contentLength :=
              if w.header.get "Content-Length" = "" then none
              else parseContentLength (w.header.get "Content-Length"),
            written := 0 }
        calls := w.calls ++ [code] } := by
  unfold ResponseWriter.fixResponse
  by_cases h : w.header.get "Content-Length" = ""
  · simp [h]
  · rcases hv with hv | ⟨n, hn⟩
    · exact absurd hv h
    · simp [h, hn]

theorem fixResponse_obs (w : ResponseWriter) (code : Nat) :
    (w.fixResponse code).wroteHeader = true ∧ (w.fixResponse code).status = code ∧
    (w.fixResponse code).sent = w.header ∧ (w.fixResponse code).calls = w.calls ++ [code] ∧
    (w.fixResponse code).body = w.body ∧ (w.fixResponse code).hijacker = w.hijacker := by
  unfold ResponseWriter.fixResponse
  by_cases h : w.header.get "Content-Length" = ""
  · simp [h, ResponseWriter.wroteHeader, ResponseWriter.status, ResponseWriter.sent]
  · cases hp : parseContentLength (w.header.get "Content-Length") <;>
      simp [h, hp, ResponseWriter.wroteHeader, ResponseWriter.status, ResponseWriter.sent]

theorem WriteHeader_final (w : ResponseWriter) (code : Nat) (hw : w.wroteHeader = false)
    (h1 : code = 101 ∨ 200 ≤ code) (h2 : code ≤ 999) :
    w.WriteHeader code = .ok (w.fixResponse code) := by
  have h3 : ¬ (code < 100 ∨ code > 999) := by omega
  have h4 : ¬ (100 ≤ code ∧ code ≤ 199 ∧ code ≠ 101) := by omega
  simp only [ResponseWriter.WriteHeader, hw, h3, h4]
  simp

theorem WriteHeader_written (w : ResponseWriter) (code : Nat) (hw : w.wroteHeader = true) :
    w.WriteHeader code = .ok { w with calls := w.calls ++ [code] } := by
  simp [ResponseWriter.WriteHeader, hw]

theorem WriteHeader_invalid (w : ResponseWriter) (code : Nat) (hw : w.wroteHeader = false)
    (h1 : code < 100 ∨ code > 999) :
    w.WriteHeader code =
      .error { w := { w with calls := w.calls ++ [code] }, code := code } := by
  simp [ResponseWriter.WriteHeader, hw, h1]

theorem WriteHeader_informational (w : ResponseWriter) (code : Nat)
    (hw : w.wroteHeader = false) (h1 : 100 ≤ code ∧ code ≤ 199 ∧ code ≠ 101) :
    w.WriteHeader code =
      .ok { w with informational := w.informational ++ [(code, w.header)],
                   calls := w.calls ++ [code] } := by
  have h3 : ¬ (code < 100 ∨ code > 999) := by omega
  simp only [ResponseWriter.WriteHeader, hw, h3, h1]
  simp [h1.2.2]

theorem Write_of_fixed (w : ResponseWriter) (fixed : Fixed) (p : String)
    (h : w.response = some fixed) :
    w.Write p = .ok (writeFixed w fixed p) := by
  have hw : w.wroteHeader = true := by simp [ResponseWriter.wroteHeader, h]
  simp [ResponseWriter.Write, hw, h]

theorem writeFixed_obs (w : ResponseWriter) (fixed : Fixed) (p : String)
    (h : w.response = some fixed) :
    (writeFixed w fixed p).1.wroteHeader = true ∧
    (writeFixed w fixed p).1.status = w.status ∧
    (writeFixed w fixed p).1.sent = w.sent ∧
    (writeFixed w fixed p).1.header = w.header ∧
    (writeFixed w fixed p).1.calls = w.calls := by
  unfold writeFixed
  by_cases hp : p = ""
  · simp [hp, ResponseWriter.wroteHeader, ResponseWriter.status, ResponseWriter.sent, h]
  · cases ha : bodyAllowedForStatus fixed.status
    · simp [hp, ha, ResponseWriter.wroteHeader, ResponseWriter.status, ResponseWriter.sent, h]
    · cases hc : fixed.contentLength with
      | none =>
        simp [hp, ha, hc, ResponseWriter.wroteHeader, ResponseWriter.status,
          ResponseWriter.sent, h]
      | some n =>
        by_cases hn : fixed.written + p.length > n
        · simp [hp, ha, hc, hn, ResponseWriter.wroteHeader, ResponseWriter.status,
            ResponseWriter.sent, h]
        · simp [hp, ha, hc, hn, ResponseWriter.wroteHeader, ResponseWriter.status,
            ResponseWriter.sent, h]

theorem writeFixed_fits (w : ResponseWriter) (fixed : Fixed) (p : String) (hp : p ≠ "")
    (ha : bodyAllowedForStatus fixed.status = true)
    (hfit : ∀ n, fixed.contentLength = some n → fixed.written + p.length ≤ n) :
    writeFixed w fixed p =
      ({ w with response := some { fixed with written := fixed.written + p.length },
                body := w.body ++ p }, none) := by
  unfold writeFixed
  cases hc : fixed.contentLength with
  | none => simp [hp, ha]
  | some n =>
    have hn : ¬ (fixed.written + p.length > n) := by
      have := hfit n hc
      omega
    simp [hp, ha, hn]

theorem Write_written_obs (w : ResponseWriter) (p : String) (hw : w.wroteHeader = true) :
    ∃ w1 err, w.Write p = .ok (w1, err) ∧ w1.wroteHeader = true ∧ w1.status = w.status ∧
      w1.sent = w.sent ∧ w1.header = w.header ∧ w1.calls = w.calls := by
  cases h : w.response with
  | none => simp [ResponseWriter.wroteHeader, h] at hw
  | some fixed =>
    exact ⟨(writeFixed w fixed p).1, (writeFixed w fixed p).2, Write_of_fixed w fixed p h,
      writeFixed_obs w fixed p h⟩

/-! ## Lemmas on `http.Error` -/

theorem errorHeader_no_length (h : Header) :
    (((h.Del "Content-Length").Set "Content-Type" "text/plain; charset=utf-8").Set
      "X-Content-Type-Options" "nosniff").get "Content-Length" = "" := by
  simp [Header.get, Header.Set, Header.Del, Header.index_assign, Header.index_delete,
    canonical_ContentLength, canonical_ContentType, canonical_XContentTypeOptions]

theorem line_ne_empty (e : String) : e ++ "\n" ≠ "" := by
  intro h
  have h1 := congrArg String.data h
  simp at h1

theorem Error_unwritten (w : ResponseWriter) (e : String) (code : Nat)
    (hw : w.wroteHeader = false) (h1 : 200 ≤ code) (h2 : code ≤ 999)
    (ha : bodyAllowedForStatus code = true) :
    Error w e code =
      .ok { w with
        header := ((w.header.Del "Content-Length").Set "Content-Type"
          "text/plain; charset=utf-8").Set "X-Content-Type-Options" "nosniff"
        response := some
          { status := code,
            header := ((w.header.Del "Content-Length").Set "Content-Type"
              "text/plain; charset=utf-8").Set "X-Content-Type-Options" "nosniff",
            contentLength := none,
            written := 0 + (e ++ "\n").length }
        calls := w.calls ++ [code]
        body := w.body ++ (e ++ "\n") } := by
  have hw3 : (((w.delHeader "Content-Length").setHeader "Content-Type"
      "text/plain; charset=utf-8").setHeader "X-Content-Type-Options" "nosniff").wroteHeader
      = false := hw
  have hfix := fixResponse_valid (((w.delHeader "Content-Length").setHeader "Content-Type"
      "text/plain; charset=utf-8").setHeader "X-Content-Type-Options" "nosniff") code
      (Or.inl (errorHeader_no_length w.header))
  unfold Error
  simp only []
  rw [WriteHeader_final _ code hw3 (Or.inr h1) h2, hfix]
  simp only []
  rw [Write_of_fixed _ _ _ rfl, writeFixed_fits _ _ _ (line_ne_empty e) ha]
  · simp only [ResponseWriter.setHeader, ResponseWriter.delHeader]
    have h3 := errorHeader_no_length w.header
    simp only [h3, if_true]
  · intro n hn
    have h3 : (((w.delHeader "Content-Length").setHeader "Content-Type"
      "text/plain; charset=utf-8").setHeader "X-Content-Type-Options" "nosniff").header.get
      "Content-Length" = "" := errorHeader_no_length w.header
    simp [h3] at hn

theorem Error_written_obs (w : ResponseWriter) (e : String) (code : Nat)
    (hw : w.wroteHeader = true) :
    ∃ w1, Error w e code = .ok w1 ∧ w1.wroteHeader = true ∧ w1.status = w.status ∧
      w1.sent = w.sent ∧ w1.calls = w.calls ++ [code] := by
  have hw3 : (((w.delHeader "Content-Length").setHeader "Content-Type"
      "text/plain; charset=utf-8").setHeader "X-Content-Type-Options" "nosniff").wroteHeader
      = true := hw
  obtain ⟨w1, err, h1, h2, h3, h4, _, h6⟩ := Write_written_obs
    { ((w.delHeader "Content-Length").setHeader "Content-Type"
      "text/plain; charset=utf-8").setHeader "X-Content-Type-Options" "nosniff" with
      calls := w.calls ++ [code] } (e ++ "\n") hw
  refine ⟨w1, ?_, h2, h3, h4, h6⟩
  unfold Error
  simp only []
  rw [WriteHeader_written _ code hw3]
  simp only []
  exact (congrArg (fun x => match x with
    | Except.error p => (Except.error p : Except Panicked ResponseWriter)
    | Except.ok (w5, _) => Except.ok w5) h1)

/-! ## Lemmas on the body copy of `handleHTTP` -/

theorem string_append_mk (s : String) (l : List Char) :
    s ++ String.mk l = String.mk (s.data ++ l) := by
  apply String.ext
  simp

theorem copyChunks_written_obs (chunks : List String) (w : ResponseWriter)
    (hw : w.wroteHeader = true) :
    ∃ w1, copyChunks w chunks = .ok w1 ∧ w1.wroteHeader = true ∧ w1.status = w.status ∧
      w1.sent = w.sent ∧ w1.header = w.header ∧ w1.calls = w.calls := by
  induction chunks generalizing w with
  | nil => exact ⟨w, rfl, hw, rfl, rfl, rfl, rfl⟩
  | cons c cs ih =>
    by_cases hc : c = ""
    · simp only [copyChunks, hc, if_true]
      exact ih w hw
    · obtain ⟨w1, err, h1, h2, h3, h4, h5, h6⟩ := Write_written_obs w c hw
      simp only [copyChunks, hc, if_false, h1]
      cases err with
      | some m => exact ⟨w1, rfl, h2, h3, h4, h5, h6⟩
      | none =>
        obtain ⟨w2, g1, g2, g3, g4, g5, g6⟩ := ih w1 h2
        exact ⟨w2, g1, g2, g3.trans h3, g4.trans h4, g5.trans h5, g6.trans h6⟩

theorem copyChunks_body (chunks : List String) (w : ResponseWriter) (fixed : Fixed)
    (h : w.response = some fixed) (ha : bodyAllowedForStatus fixed.status = true)
    (hfit : ∀ n, fixed.contentLength = some n →
      fixed.written + (String.mk (chunks.map String.data).flatten).length ≤ n) :
    ∃ w1, copyChunks w chunks = .ok w1 ∧
      w1.body = w.body ++ String.mk (chunks.map String.data).flatten := by
  induction chunks generalizing w fixed with
  | nil =>
    refine ⟨w, rfl, ?_⟩
    apply String.ext
    simp
  | cons c cs ih =>
    have hlen : (String.mk ((c :: cs).map String.data).flatten).length =
        c.length + (String.mk (cs.map String.data).flatten).length := by
      show ((c.data :: cs.map String.data).flatten).length =
        c.data.length + ((cs.map String.data).flatten).length
      simp
    by_cases hc : c = ""
    · subst hc
      simp only [copyChunks, if_true]
      obtain ⟨w1, g1, g2⟩ := ih w fixed h ha (by
        intro n hn
        have := hfit n hn
        rw [hlen] at this
        omega)
      refine ⟨w1, g1, ?_⟩
      rw [g2]
      simp
    · have hwrite := writeFixed_fits w fixed c hc ha (by
        intro n hn
        have := hfit n hn
        rw [hlen] at this
        omega)
      simp only [copyChunks, hc, if_false, Write_of_fixed w fixed c h, hwrite]
      obtain ⟨w1, g1, g2⟩ := ih
        { w with response := some { fixed with written := fixed.written + c.length },
                 body := w.body ++ c }
        { fixed with written := fixed.written + c.length } rfl ha (by
          intro n hn
          have := hfit n hn
          rw [hlen] at this
          simp only []
          omega)
      refine ⟨w1, g1, ?_⟩
      rw [g2]
      simp [string_append_mk, String.append_assoc]

theorem copyChunks_unwritten (chunks : List String) (w : ResponseWriter)
    (hw : w.wroteHeader = false) :
    ∃ w1, copyChunks w chunks = .ok w1 ∧ (w1.status = 0 ∨ w1.status = 200) := by
  induction chunks generalizing w with
  | nil => exact ⟨w, rfl, Or.inl (status_of_unwritten w hw)⟩
  | cons c cs ih =>
    by_cases hc : c = ""
    · simp only [copyChunks, hc, if_true]
      exact ih w hw
    · have h200 : w.WriteHeader StatusOK = .ok (w.fixResponse 200) :=
        WriteHeader_final w 200 hw (Or.inr (by omega)) (by omega)
      obtain ⟨f1, f2, _, _, _, _⟩ := fixResponse_obs w 200
      obtain ⟨w1, err, h1, h2, h3, _, _, _⟩ := Write_written_obs (w.fixResponse 200) c f1
      have hwrite : w.Write c = .ok (w1, err) := by
        have h4 : (w.fixResponse 200).Write c = .ok (w1, err) := h1
        simp only [ResponseWriter.Write, f1, if_true] at h4
        simp only [ResponseWriter.Write, hw, h200]
        exact h4
      simp only [copyChunks, hc, if_false, hwrite]
      cases err with
      | some m => exact ⟨w1, rfl, Or.inr (h3.trans f2)⟩
      | none =>
        obtain ⟨w2, g1, _, g3, _, _, _⟩ := copyChunks_written_obs cs w1 h2
        exact ⟨w2, g1, Or.inr (g3.trans (h3.trans f2))⟩

/-! ## Lemmas on the header copy of `handleHTTP` -/

theorem addValues_rest (k : String) (vs : List String) (w : ResponseWriter) :
    (vs.foldl (fun acc value => acc.addHeader k value) w) =
      { w with header := (vs.foldl (fun acc value => acc.addHeader k value) w).header } := by
  induction vs generalizing w with
  | nil => rfl
  | cons v vs ih =>
    simp only [List.foldl_cons]
    rw [ih (w.addHeader k v)]
    simp [ResponseWriter.addHeader]

theorem addValues_index (k : String) (vs : List String) (w : ResponseWriter) (key : String) :
    (vs.foldl (fun acc value => acc.addHeader k value) w).header.index key =
      if CanonicalMIMEHeaderKey k = key then w.header.index key ++ vs
      else w.header.index key := by
  induction vs generalizing w with
  | nil => simp
  | cons v vs ih =>
    simp only [List.foldl_cons]
    rw [ih (w.addHeader k v)]
    by_cases hk : CanonicalMIMEHeaderKey k = key
    · simp [ResponseWriter.addHeader, Header.Add, Header.index_assign, hk]
    · simp [ResponseWriter.addHeader, Header.Add, Header.index_assign, hk]

theorem copyHeader_rest (h : Header) (w : ResponseWriter) :
    copyHeader w h = { w with header := (copyHeader w h).header } := by
  induction h generalizing w with
  | nil => rfl
  | cons kv h ih =>
    have h1 : copyHeader w (kv :: h) =
        copyHeader (kv.2.foldl (fun acc value => acc.addHeader kv.1 value) w) h := by
      simp [copyHeader]
    rw [h1, ih, addValues_rest]

theorem Header.index_not_mem_keys (h : Header) (key : String) (hk : key ∉ Header.keys h) :
    h.index key = [] := by
  induction h with
  | nil => rfl
  | cons kv h ih =>
    obtain ⟨k, vs⟩ := kv
    simp [Header.keys] at hk
    have h1 : ¬ k = key := fun e => hk.1 e.symm
    simp only [Header.index, h1, if_false]
    apply ih
    simpa [Header.keys] using hk.2

theorem copyHeader_index (h : Header) (w : ResponseWriter) (key : String)
    (hnodup : (Header.keys h).Nodup) (hcanon : ∀ k ∈ Header.keys h, CanonicalMIMEHeaderKey k = k) :
    (copyHeader w h).header.index key = w.header.index key ++ h.index key := by
  induction h generalizing w with
  | nil => simp [copyHeader, Header.index]
  | cons kv h ih =>
    obtain ⟨k, vs⟩ := kv
    have h1 : copyHeader w ((k, vs) :: h) =
        copyHeader (vs.foldl (fun acc value => acc.addHeader k value) w) h := by
      simp [copyHeader]
    have hk : CanonicalMIMEHeaderKey k = k := hcanon k (by simp [Header.keys])
    have hnd : (Header.keys h).Nodup ∧ k ∉ Header.keys h := by
      simp [Header.keys] at hnodup
      refine ⟨by simpa [Header.keys] using hnodup.2, ?_⟩
      simpa [Header.keys] using hnodup.1
    have hc : ∀ k1 ∈ Header.keys h, CanonicalMIMEHeaderKey k1 = k1 := by
      intro k1 hk1
      apply hcanon
      simp only [Header.keys, List.map_cons, List.mem_cons]
      exact Or.inr hk1
    rw [h1, ih _ hnd.1 hc, addValues_index, hk]
    by_cases hkey : k = key
    · subst hkey
      simp [Header.index, Header.index_not_mem_keys h k hnd.2]
    · simp [Header.index, hkey]

/-! ## What "missing" and "undecodable" credentials are for `BasicAuth` -/

theorem BasicAuth_missing (r : Request) (h : r.Header.index "Authorization" = []) :
    r.BasicAuth = ("", "", false) := by
  have hc : CanonicalMIMEHeaderKey "Authorization" = "Authorization" := by decide
  simp [Request.BasicAuth, Header.Get, hc, h]

theorem parseBasicAuth_undecodable (auth : String)
    (h : DecodeString (String.mk (auth.data.drop 6)) = none) :
    parseBasicAuth auth = ("", "", false) := by
  unfold parseBasicAuth
  split
  · rfl
  · rw [h]

theorem parseBasicAuth_other_scheme (auth : String)
    (h : EqualFold (auth.data.take 6) "Basic ".data = false) :
    parseBasicAuth auth = ("", "", false) := by
  simp [parseBasicAuth, h]

/-! ## Authentication (`ServeHTTP`, lines 31-38) -/

theorem authRejected_of_bad (h : httpProxyHandler) (r : Request)
    (hbad : r.BasicAuth.2.2 = false ∨ r.BasicAuth.1 ≠ h.user ∨ r.BasicAuth.2.1 ≠ h.password) :
    authRejected h r = true := by
  unfold authRejected credentialsRejected
  rcases hr : r.BasicAuth with ⟨u, p, ok⟩
  rw [hr] at hbad
  simp only [Bool.or_eq_true, Bool.not_eq_true', bne_iff_ne, ne_eq]
  rcases hbad with h1 | h1 | h1
  · exact Or.inl (Or.inl h1)
  · exact Or.inl (Or.inr h1)
  · exact Or.inr h1

theorem copyHeader_wroteHeader (h : Header) (w : ResponseWriter) :
    (copyHeader w h).wroteHeader = w.wroteHeader := by
  rw [copyHeader_rest]
  rfl

theorem ServeHTTP_reject (h : httpProxyHandler) (env : Env) (w : ResponseWriter) (r : Request)
    (hauth : h.auth = true) (hrej : authRejected h r = true) :
    ServeHTTP h env w r =
      Outcome.ofResult (Error (w.setHeader "Proxy-Authenticate" "Basic")
        "Proxy authentication required" StatusProxyAuthRequired) [] := by
  simp [ServeHTTP, hauth, hrej]

theorem ServeHTTP_pass (h : httpProxyHandler) (env : Env) (w : ResponseWriter) (r : Request)
    (hpass : (h.auth && authRejected h r) = false) :
    ServeHTTP h env w r =
      if r.Method = MethodConnect then handleConnect env w r else handleHTTP env w r := by
  simp [ServeHTTP, hpass]

/-- C1: a handler with authentication enabled answers a request whose Basic
credentials are missing or undecodable (`ok = false`) or differ from the
configured pair in user or password with status 407 and the header
`Proxy-Authenticate: Basic`, and does nothing else: no dial, no round trip, no
hijack, no tunnel. -/
theorem ServeHTTP_bad_credentials_407 (h : httpProxyHandler) (env : Env) (w : ResponseWriter)
    (r : Request) (hauth : h.auth = true) (hw : w.wroteHeader = false)
    (hbad : r.BasicAuth.2.2 = false ∨ r.BasicAuth.1 ≠ h.user ∨ r.BasicAuth.2.1 ≠ h.password) :
    (ServeHTTP h env w r).w.wroteHeader = true ∧
    (ServeHTTP h env w r).w.status = StatusProxyAuthRequired ∧
    StatusProxyAuthRequired = 407 ∧
    (ServeHTTP h env w r).w.sent.index "Proxy-Authenticate" = ["Basic"] ∧
    (ServeHTTP h env w r).w.calls = w.calls ++ [StatusProxyAuthRequired] ∧
    (ServeHTTP h env w r).effects = [] ∧
    (ServeHTTP h env w r).tunnel = none := by
  rw [ServeHTTP_reject h env w r hauth (authRejected_of_bad h r hbad)]
  have hw1 : (w.setHeader "Proxy-Authenticate" "Basic").wroteHeader = false := hw
  rw [Error_unwritten _ _ StatusProxyAuthRequired hw1 (by decide) (by decide) (by decide)]
  refine ⟨rfl, rfl, rfl, ?_, rfl, rfl, rfl⟩
  simp [Outcome.ofResult, ResponseWriter.sent, ResponseWriter.setHeader, Header.Set,
    Header.Del, Header.index_assign, Header.index_delete, canonical_ProxyAuthenticate,
    canonical_ContentLength, canonical_ContentType, canonical_XContentTypeOptions]

/-- C1, at a concrete input: the secured handler and a CONNECT request with no
credentials at all. -/
theorem ServeHTTP_bad_credentials_407_witness :
    (ServeHTTP (main cfgSecured).httpProxy envReachable writerHijackable connectPlain).w.wroteHeader
        = true ∧
    (ServeHTTP (main cfgSecured).httpProxy envReachable writerHijackable connectPlain).w.status
        = StatusProxyAuthRequired ∧
    StatusProxyAuthRequired = 407 ∧
    (ServeHTTP (main cfgSecured).httpProxy envReachable writerHijackable
        connectPlain).w.sent.index "Proxy-Authenticate" = ["Basic"] ∧
    (ServeHTTP (main cfgSecured).httpProxy envReachable writerHijackable connectPlain).w.calls
        = writerHijackable.calls ++ [StatusProxyAuthRequired] ∧
    (ServeHTTP (main cfgSecured).httpProxy envReachable writerHijackable connectPlain).effects
        = [] ∧
    (ServeHTTP (main cfgSecured).httpProxy envReachable writerHijackable connectPlain).tunnel
        = none :=
  ServeHTTP_bad_credentials_407 (main cfgSecured).httpProxy envReachable writerHijackable
    connectPlain (by decide) (by decide) (by decide)

/-- C2: the handler configured with `u` / `p` answers 407 to a CONNECT request
whose `Proxy-Authorization` header is `Basic dTpw`, the base64 text of `u:p`,
and dials nothing; the same value in the `Authorization` header is accepted
and the target is dialed. `r.BasicAuth()` reads `Authorization` only. -/
theorem ServeHTTP_ignores_ProxyAuthorization :
    (main cfgSecured).httpProxy = { auth := true, user := "u", password := "p" } ∧
    parseBasicAuth "Basic dTpw" = ("u", "p", true) ∧
    connectWithProxyAuthorization.Header.Get "Proxy-Authorization" = "Basic dTpw" ∧
    connectWithProxyAuthorization.BasicAuth = ("", "", false) ∧
    (ServeHTTP (main cfgSecured).httpProxy envReachable writerHijackable
        connectWithProxyAuthorization).w.status = 407 ∧
    (ServeHTTP (main cfgSecured).httpProxy envReachable writerHijackable
        connectWithProxyAuthorization).effects = [] ∧
    (ServeHTTP (main cfgSecured).httpProxy envReachable writerHijackable
        connectWithAuthorization).w.status = 200 ∧
    (ServeHTTP (main cfgSecured).httpProxy envReachable writerHijackable
        connectWithAuthorization).effects = [.dial "tcp" "blocked.com:443", .hijack] := by
  decide

/-! ## The two handlers, case by case -/

theorem WriteHeader_OK (w : ResponseWriter) (hw : w.wroteHeader = false) :
    w.WriteHeader StatusOK = .ok (w.fixResponse 200) :=
  WriteHeader_final w 200 hw (Or.inr (by omega)) (by omega)

theorem handleConnect_dial_error (env : Env) (w : ResponseWriter) (r : Request) (e : String)
    (hdial : env.Dial "tcp" r.Host = .error e) :
    handleConnect env w r =
      Outcome.ofResult (Error w e StatusServiceUnavailable) [.dial "tcp" r.Host] := by
  simp [handleConnect, hdial]

theorem handleConnect_unsupported (env : Env) (w : ResponseWriter) (r : Request) (t : Conn)
    (hw : w.wroteHeader = false) (hdial : env.Dial "tcp" r.Host = .ok t)
    (hhj : w.hijacker = .unsupported) :
    handleConnect env w r =
      Outcome.ofResult
        (Error (w.fixResponse 200) "Hijacking not supported" StatusInternalServerError)
        [.dial "tcp" r.Host, .closeTarget t] := by
  have h1 : (w.fixResponse 200).hijacker = .unsupported :=
    (fixResponse_obs w 200).2.2.2.2.2.trans hhj
  simp only [handleConnect, hdial, WriteHeader_OK w hw, h1]

theorem handleConnect_hijack_fails (env : Env) (w : ResponseWriter) (r : Request) (t : Conn)
    (e : String) (hw : w.wroteHeader = false) (hdial : env.Dial "tcp" r.Host = .ok t)
    (hhj : w.hijacker = .fails e) :
    handleConnect env w r =
      Outcome.ofResult (Error (w.fixResponse 200) e StatusServiceUnavailable)
        [.dial "tcp" r.Host, .hijack, .closeTarget t] := by
  have h1 : (w.fixResponse 200).hijacker = .fails e :=
    (fixResponse_obs w 200).2.2.2.2.2.trans hhj
  simp only [handleConnect, hdial, WriteHeader_OK w hw, h1]

theorem handleConnect_hijacked (env : Env) (w : ResponseWriter) (r : Request) (t c : Conn)
    (hw : w.wroteHeader = false) (hdial : env.Dial "tcp" r.Host = .ok t)
    (hhj : w.hijacker = .ok c) :
    handleConnect env w r =
      { w := w.fixResponse 200, effects := [.dial "tcp" r.Host, .hijack],
        tunnel := some { clientConn := c, targetConn := t }, panicked := none } := by
  have h1 : (w.fixResponse 200).hijacker = .ok c :=
    (fixResponse_obs w 200).2.2.2.2.2.trans hhj
  simp only [handleConnect, hdial, WriteHeader_OK w hw, h1]

theorem Error_after_200 (w : ResponseWriter) (e : String) (code : Nat) :
    ∃ w1, Error (w.fixResponse 200) e code = .ok w1 ∧ w1.status = 200 ∧
      w1.calls = w.calls ++ [200] ++ [code] := by
  obtain ⟨f1, f2, _, f4, _, _⟩ := fixResponse_obs w 200
  obtain ⟨w1, h1, _, h3, _, h5⟩ := Error_written_obs (w.fixResponse 200) e code f1
  exact ⟨w1, h1, h3.trans f2, by rw [h5, f4]⟩

theorem Error_503 (w : ResponseWriter) (e : String) (hw : w.wroteHeader = false) :
    Error w e StatusServiceUnavailable =
      .ok { w with
        header := ((w.header.Del "Content-Length").Set "Content-Type"
          "text/plain; charset=utf-8").Set "X-Content-Type-Options" "nosniff"
        response := some
          { status := 503,
            header := ((w.header.Del "Content-Length").Set "Content-Type"
              "text/plain; charset=utf-8").Set "X-Content-Type-Options" "nosniff",
            contentLength := none,
            written := 0 + (e ++ "\n").length }
        calls := w.calls ++ [503]
        body := w.body ++ (e ++ "\n") } :=
  Error_unwritten w e 503 hw (by omega) (by omega) (by decide)

theorem handleHTTP_error (env : Env) (w : ResponseWriter) (r : Request) (e : String)
    (hrt : env.RoundTrip r = .error e) :
    handleHTTP env w r =
      Outcome.ofResult (Error w e StatusServiceUnavailable) [.roundTrip r] := by
  simp [handleHTTP, hrt]

theorem handleHTTP_ok (env : Env) (w : ResponseWriter) (r : Request) (resp : Response)
    (hrt : env.RoundTrip r = .ok resp) :
    handleHTTP env w r =
      match (copyHeader w resp.Header).WriteHeader resp.StatusCode with
      | .error e => Outcome.ofResult (.error e) [.roundTrip r, .closeBody]
      | .ok w2 => Outcome.ofResult (Copy w2 resp.Body) [.roundTrip r, .closeBody] := by
  simp [handleHTTP, hrt]

theorem handleHTTP_final (env : Env) (w : ResponseWriter) (r : Request) (resp : Response)
    (hrt : env.RoundTrip r = .ok resp) (hw : w.wroteHeader = false)
    (h1 : resp.StatusCode = 101 ∨ 200 ≤ resp.StatusCode) (h2 : resp.StatusCode ≤ 999) :
    handleHTTP env w r =
      Outcome.ofResult
        (Copy ((copyHeader w resp.Header).fixResponse resp.StatusCode) resp.Body)
        [.roundTrip r, .closeBody] := by
  rw [handleHTTP_ok env w r resp hrt,
    WriteHeader_final _ _ ((copyHeader_wroteHeader resp.Header w).trans hw) h1 h2]

theorem handleHTTP_status (env : Env) (w : ResponseWriter) (r : Request) (resp : Response)
    (hrt : env.RoundTrip r = .ok resp) (hw : w.wroteHeader = false) :
    (handleHTTP env w r).w.status = resp.StatusCode ∨ (handleHTTP env w r).w.status = 0 ∨
      (handleHTTP env w r).w.status = 200 := by
  have hw1 : (copyHeader w resp.Header).wroteHeader = false :=
    (copyHeader_wroteHeader resp.Header w).trans hw
  by_cases hinv : resp.StatusCode < 100 ∨ resp.StatusCode > 999
  · right; left
    rw [handleHTTP_ok env w r resp hrt, WriteHeader_invalid _ _ hw1 hinv]
    simp only [Outcome.ofResult]
    exact status_of_unwritten _ hw1
  · by_cases hinf : 100 ≤ resp.StatusCode ∧ resp.StatusCode ≤ 199 ∧ resp.StatusCode ≠ 101
    · right
      rw [handleHTTP_ok env w r resp hrt, WriteHeader_informational _ _ hw1 hinf]
      obtain ⟨w1, h3, h4⟩ := copyChunks_unwritten resp.Body.chunks
        { copyHeader w resp.Header with
          informational := (copyHeader w resp.Header).informational ++
            [(resp.StatusCode, (copyHeader w resp.Header).header)],
          calls := (copyHeader w resp.Header).calls ++ [resp.StatusCode] } hw1
      simp only [Copy, h3, Outcome.ofResult]
      exact h4
    · left
      rw [handleHTTP_final env w r resp hrt hw (by omega) (by omega)]
      obtain ⟨f1, f2, _, _, _, _⟩ := fixResponse_obs (copyHeader w resp.Header) resp.StatusCode
      obtain ⟨w1, h3, _, h5, _, _, _⟩ := copyChunks_written_obs resp.Body.chunks
        ((copyHeader w resp.Header).fixResponse resp.StatusCode) f1
      simp only [Copy, h3, Outcome.ofResult]
      exact h5.trans f2

/-! ## Target failures and the committed 200 (`handleConnect`, `handleHTTP`) -/

/-- C7, as the code has it: for a request that passes authentication, a
failed dial (CONNECT) or a failed round trip (any other method) with error `e`
gives status 503, the body `e` followed by a line feed, a single `WriteHeader`
call (so no 200), no hijack and no tunnel; a CONNECT whose dial succeeds has
status 200, and when the hijack succeeds too nothing is written to the body
and the tunnel is established. -/
theorem ServeHTTP_target_failure_503 (h : httpProxyHandler) (env : Env) (w : ResponseWriter)
    (r : Request) (hpass : (h.auth && authRejected h r) = false) (hw : w.unused) :
    (∀ e, r.Method = MethodConnect → env.Dial "tcp" r.Host = .error e →
      (ServeHTTP h env w r).w.status = 503 ∧
      (ServeHTTP h env w r).w.body = e ++ "\n" ∧
      (ServeHTTP h env w r).w.calls = [503] ∧
      Effect.hijack ∉ (ServeHTTP h env w r).effects ∧
      (ServeHTTP h env w r).tunnel = none) ∧
    (∀ e, r.Method ≠ MethodConnect → env.RoundTrip r = .error e →
      (ServeHTTP h env w r).w.status = 503 ∧
      (ServeHTTP h env w r).w.body = e ++ "\n" ∧
      (ServeHTTP h env w r).w.calls = [503] ∧
      Effect.hijack ∉ (ServeHTTP h env w r).effects ∧
      (ServeHTTP h env w r).tunnel = none) ∧
    (∀ t, r.Method = MethodConnect → env.Dial "tcp" r.Host = .ok t →
      (ServeHTTP h env w r).w.status = 200 ∧
      (ServeHTTP h env w r).w.calls.head? = some 200 ∧
      (∀ c, w.hijacker = .ok c →
        (ServeHTTP h env w r).w.body = "" ∧
        (ServeHTTP h env w r).w.calls = [200] ∧
        (ServeHTTP h env w r).tunnel = some { clientConn := c, targetConn := t })) := by
  obtain ⟨hw1, hw2, hw3⟩ := hw
  rw [ServeHTTP_pass h env w r hpass]
  obtain ⟨f1, f2, f3, f4, f5, f6⟩ := fixResponse_obs w 200
  refine ⟨?_, ?_, ?_⟩
  · intro e hm hdial
    rw [if_pos hm, handleConnect_dial_error env w r e hdial, Error_503 w e hw1]
    refine ⟨rfl, ?_, ?_, by simp [Outcome.ofResult], rfl⟩
    · simp [Outcome.ofResult, hw3]
    · simp [Outcome.ofResult, hw2]
  · intro e hm hrt
    rw [if_neg hm, handleHTTP_error env w r e hrt, Error_503 w e hw1]
    refine ⟨rfl, ?_, ?_, by simp [Outcome.ofResult], rfl⟩
    · simp [Outcome.ofResult, hw3]
    · simp [Outcome.ofResult, hw2]
  · intro t hm hdial
    rw [if_pos hm]
    refine ⟨?_, ?_, ?_⟩
    · cases hhj : w.hijacker with
      | unsupported =>
        obtain ⟨w1, h1, h2, _⟩ :=
          Error_after_200 w "Hijacking not supported" StatusInternalServerError
        rw [handleConnect_unsupported env w r t hw1 hdial hhj, h1]
        exact h2
      | fails e =>
        obtain ⟨w1, h1, h2, _⟩ := Error_after_200 w e StatusServiceUnavailable
        rw [handleConnect_hijack_fails env w r t e hw1 hdial hhj, h1]
        exact h2
      | ok c =>
        rw [handleConnect_hijacked env w r t c hw1 hdial hhj]
        exact f2
    · cases hhj : w.hijacker with
      | unsupported =>
        obtain ⟨w1, h1, _, h3⟩ :=
          Error_after_200 w "Hijacking not supported" StatusInternalServerError
        rw [handleConnect_unsupported env w r t hw1 hdial hhj, h1]
        simp [Outcome.ofResult, h3, hw2]
      | fails e =>
        obtain ⟨w1, h1, _, h3⟩ := Error_after_200 w e StatusServiceUnavailable
        rw [handleConnect_hijack_fails env w r t e hw1 hdial hhj, h1]
        simp [Outcome.ofResult, h3, hw2]
      | ok c =>
        rw [handleConnect_hijacked env w r t c hw1 hdial hhj]
        simp [f4, hw2]
    · intro c hhj
      rw [handleConnect_hijacked env w r t c hw1 hdial hhj]
      refine ⟨f5.trans hw3, ?_, rfl⟩
      simp [f4, hw2]

/-- C7, at a concrete input: the open handler and a CONNECT request on a fresh
hijackable writer, once with a dial that is refused and once with a dial that
succeeds. -/
theorem ServeHTTP_target_failure_503_witness :
    ((ServeHTTP (main cfgOpen).httpProxy envUnreachable writerHijackable connectPlain).w.status
        = 503 ∧
      (ServeHTTP (main cfgOpen).httpProxy envUnreachable writerHijackable connectPlain).w.body
        = "dial tcp: connection refused" ++ "\n" ∧
      (ServeHTTP (main cfgOpen).httpProxy envUnreachable writerHijackable connectPlain).w.calls
        = [503] ∧
      Effect.hijack ∉
        (ServeHTTP (main cfgOpen).httpProxy envUnreachable writerHijackable connectPlain).effects ∧
      (ServeHTTP (main cfgOpen).httpProxy envUnreachable writerHijackable connectPlain).tunnel
        = none) ∧
    ((ServeHTTP (main cfgOpen).httpProxy envReachable writerHijackable connectPlain).w.body
        = "" ∧
      (ServeHTTP (main cfgOpen).httpProxy envReachable writerHijackable connectPlain).w.calls
        = [200] ∧
      (ServeHTTP (main cfgOpen).httpProxy envReachable writerHijackable connectPlain).tunnel
        = some tunnelBlocked) :=
  ⟨(ServeHTTP_target_failure_503 (main cfgOpen).httpProxy envUnreachable writerHijackable
      connectPlain (by decide) (by decide)).1 "dial tcp: connection refused" rfl rfl,
   ((ServeHTTP_target_failure_503 (main cfgOpen).httpProxy envReachable writerHijackable
      connectPlain (by decide) (by decide)).2.2 { addr := "blocked.com:443" } rfl rfl).2.2
      { addr := "client" } rfl⟩

/-- C7 as stated fails: with a failed dial the body is the message and a line
feed, not the message alone; and with a successful dial on a writer that is
not a hijacker the 200 response does get a body, the text of the later
`http.Error` call. -/
theorem connect_200_with_body :
    envUnreachable.Dial "tcp" connectPlain.Host = .error "dial tcp: connection refused" ∧
    (ServeHTTP (main cfgOpen).httpProxy envUnreachable writerHijackable connectPlain).w.body
      = "dial tcp: connection refused\n" ∧
    envReachable.Dial "tcp" connectPlain.Host = .ok { addr := "blocked.com:443" } ∧
    (ServeHTTP (main cfgOpen).httpProxy envReachable writerPlain connectPlain).w.status = 200 ∧
    (ServeHTTP (main cfgOpen).httpProxy envReachable writerPlain connectPlain).w.body
      = "Hijacking not supported\n" ∧
    (ServeHTTP (main cfgOpen).httpProxy envReachable writerPlain connectPlain).w.body ≠ "" :=
  ⟨rfl, by decide, rfl, by decide, by decide, by decide⟩

/-- C10: when the dial of a CONNECT request succeeds and the writer is not a
hijacker, or its `Hijack` fails, the `WriteHeader` calls are 200 first and the
error status (500, resp. 503) second, the status of the response is 200, no
tunnel is set up (nothing is relayed), and the last thing the handler does is
close the target connection it opened. -/
theorem handleConnect_commits_200_before_hijack (env : Env) (w : ResponseWriter) (r : Request)
    (t : Conn) (hw : w.unused) (hdial : env.Dial "tcp" r.Host = .ok t) :
    (w.hijacker = .unsupported →
      (handleConnect env w r).w.calls = [200, 500] ∧
      (handleConnect env w r).w.status = 200 ∧
      (handleConnect env w r).tunnel = none ∧
      (handleConnect env w r).effects = [.dial "tcp" r.Host, .closeTarget t]) ∧
    (∀ e, w.hijacker = .fails e →
      (handleConnect env w r).w.calls = [200, 503] ∧
      (handleConnect env w r).w.status = 200 ∧
      (handleConnect env w r).tunnel = none ∧
      (handleConnect env w r).effects = [.dial "tcp" r.Host, .hijack, .closeTarget t]) := by
  obtain ⟨hw1, hw2, hw3⟩ := hw
  refine ⟨?_, ?_⟩
  · intro hhj
    obtain ⟨w1, h1, h2, h3⟩ :=
      Error_after_200 w "Hijacking not supported" StatusInternalServerError
    rw [handleConnect_unsupported env w r t hw1 hdial hhj, h1]
    refine ⟨?_, h2, rfl, rfl⟩
    simp [Outcome.ofResult, h3, hw2, StatusInternalServerError]
  · intro e hhj
    obtain ⟨w1, h1, h2, h3⟩ := Error_after_200 w e StatusServiceUnavailable
    rw [handleConnect_hijack_fails env w r t e hw1 hdial hhj, h1]
    refine ⟨?_, h2, rfl, rfl⟩
    simp [Outcome.ofResult, h3, hw2, StatusServiceUnavailable]

/-- C10, at a concrete input: a fresh writer that is not a hijacker and a
CONNECT request whose dial succeeds. -/
theorem handleConnect_commits_200_before_hijack_witness :
    writerPlain.hijacker = .unsupported ∧
    (handleConnect envReachable writerPlain connectPlain).w.calls = [200, 500] ∧
    (handleConnect envReachable writerPlain connectPlain).w.status = 200 ∧
    (handleConnect envReachable writerPlain connectPlain).tunnel = none ∧
    (handleConnect envReachable writerPlain connectPlain).effects =
      [.dial "tcp" connectPlain.Host, .closeTarget { addr := "blocked.com:443" }] :=
  ⟨rfl, (handleConnect_commits_200_before_hijack envReachable writerPlain connectPlain
    { addr := "blocked.com:443" } (by decide) rfl).1 rfl⟩

/-! ## No credentials configured -/

theorem main_httpProxy (cfg : params) :
    (main cfg).httpProxy =
      { auth := decide (cfg.User ++ cfg.Password ≠ ""), user := cfg.User,
        password := cfg.Password } := by
  by_cases h : cfg.User ++ cfg.Password = ""
  · simp [main, configureAuth, h]
  · simp [main, configureAuth, h]

theorem main_AuthMethods (cfg : params) :
    (main cfg).socks5conf.AuthMethods =
      if cfg.User ++ cfg.Password ≠ "" then
        [.UserPassAuthenticator [(cfg.User, cfg.Password)]]
      else [] := by
  by_cases h : cfg.User ++ cfg.Password = ""
  · by_cases h2 : cfg.AllowedDestFqdn = "" <;> simp [main, configureAuth, configureRules, h, h2]
  · by_cases h2 : cfg.AllowedDestFqdn = "" <;> simp [main, configureAuth, configureRules, h, h2]

theorem main_Credentials (cfg : params) : (main cfg).socks5conf.Credentials = none := by
  by_cases h : cfg.User ++ cfg.Password = "" <;>
    by_cases h2 : cfg.AllowedDestFqdn = "" <;>
      simp [main, configureAuth, configureRules, h, h2]

theorem main_socks5Server_AuthMethods (cfg : params) :
    (main cfg).socks5Server.AuthMethods =
      if cfg.User ++ cfg.Password ≠ "" then
        [.UserPassAuthenticator [(cfg.User, cfg.Password)]]
      else [.NoAuthAuthenticator] := by
  have h1 : (main cfg).socks5Server.AuthMethods =
      if (main cfg).socks5conf.AuthMethods.length = 0 then
        match (main cfg).socks5conf.Credentials with
        | some creds => [.UserPassAuthenticator creds]
        | none => [.NoAuthAuthenticator]
      else (main cfg).socks5conf.AuthMethods := rfl
  rw [h1, main_Credentials, main_AuthMethods]
  by_cases h : cfg.User ++ cfg.Password = "" <;> simp [h]

theorem handleConnect_status (env : Env) (w : ResponseWriter) (r : Request)
    (hw : w.wroteHeader = false) :
    (handleConnect env w r).w.status = 503 ∨ (handleConnect env w r).w.status = 200 := by
  cases hdial : env.Dial "tcp" r.Host with
  | error e =>
    left
    rw [handleConnect_dial_error env w r e hdial, Error_503 w e hw]
    rfl
  | ok t =>
    right
    cases hhj : w.hijacker with
    | unsupported =>
      obtain ⟨w1, h1, h2, _⟩ :=
        Error_after_200 w "Hijacking not supported" StatusInternalServerError
      rw [handleConnect_unsupported env w r t hw hdial hhj, h1]
      exact h2
    | fails e =>
      obtain ⟨w1, h1, h2, _⟩ := Error_after_200 w e StatusServiceUnavailable
      rw [handleConnect_hijack_fails env w r t e hw hdial hhj, h1]
      exact h2
    | ok c =>
      rw [handleConnect_hijacked env w r t c hw hdial hhj]
      exact (fixResponse_obs w 200).2.1

/-- C3, as the code has it: with `PROXY_USER` and `PROXY_PASSWORD` both empty
the handler's `auth` flag is false, `ServeHTTP` is the CONNECT handler or the
forward handler for every request, whatever its headers, and the SOCKS5
configuration gets no authenticator (the server falls back to no-auth). A 407
status can then only be the status of the target's own response, relayed by
the forward handler. -/
theorem ServeHTTP_no_credentials_proceeds (cfg : params) (hu : cfg.User = "")
    (hp : cfg.Password = "") (env : Env) (w : ResponseWriter) (r : Request) :
    (main cfg).httpProxy.auth = false ∧
    ServeHTTP (main cfg).httpProxy env w r =
      (if r.Method = MethodConnect then handleConnect env w r else handleHTTP env w r) ∧
    (main cfg).socks5conf.AuthMethods = [] ∧
    (main cfg).socks5Server.AuthMethods = [.NoAuthAuthenticator] ∧
    (w.wroteHeader = false → (ServeHTTP (main cfg).httpProxy env w r).w.status = 407 →
      r.Method ≠ MethodConnect ∧
      ∃ resp, env.RoundTrip r = .ok resp ∧ resp.StatusCode = 407) := by
  have hempty : cfg.User ++ cfg.Password = "" := by rw [hu, hp]; rfl
  have hauth : (main cfg).httpProxy.auth = false := by
    rw [main_httpProxy]; simp [hempty]
  have hpass : ((main cfg).httpProxy.auth && authRejected (main cfg).httpProxy r) = false := by
    rw [hauth]; rfl
  have hmeth : (main cfg).socks5conf.AuthMethods = [] := by
    rw [main_AuthMethods]; simp [hempty]
  refine ⟨hauth, ServeHTTP_pass _ env w r hpass, hmeth, ?_, ?_⟩
  · rw [main_socks5Server_AuthMethods]
    simp [hempty]
  · intro hw hst
    rw [ServeHTTP_pass _ env w r hpass] at hst
    by_cases hm : r.Method = MethodConnect
    · rw [if_pos hm] at hst
      rcases handleConnect_status env w r hw with h1 | h1 <;> omega
    · rw [if_neg hm] at hst
      refine ⟨hm, ?_⟩
      cases hrt : env.RoundTrip r with
      | error e =>
        rw [handleHTTP_error env w r e hrt, Error_503 w e hw] at hst
        simp [Outcome.ofResult, ResponseWriter.status] at hst
      | ok resp =>
        refine ⟨resp, rfl, ?_⟩
        rcases handleHTTP_status env w r resp hrt hw with h1 | h1 | h1 <;> omega

/-- C3, at a concrete input: the open configuration and a GET request. -/
theorem ServeHTTP_no_credentials_proceeds_witness :
    (main cfgOpen).httpProxy.auth = false ∧
    ServeHTTP (main cfgOpen).httpProxy envReachable writerHijackable getWithAuthorization =
      (if getWithAuthorization.Method = MethodConnect then
        handleConnect envReachable writerHijackable getWithAuthorization
      else handleHTTP envReachable writerHijackable getWithAuthorization) ∧
    (main cfgOpen).socks5conf.AuthMethods = [] ∧
    (main cfgOpen).socks5Server.AuthMethods = [.NoAuthAuthenticator] ∧
    (writerHijackable.wroteHeader = false →
      (ServeHTTP (main cfgOpen).httpProxy envReachable writerHijackable
        getWithAuthorization).w.status = 407 →
      getWithAuthorization.Method ≠ MethodConnect ∧
      ∃ resp, envReachable.RoundTrip getWithAuthorization = .ok resp ∧ resp.StatusCode = 407) :=
  ServeHTTP_no_credentials_proceeds cfgOpen rfl rfl envReachable writerHijackable
    getWithAuthorization

/-- C3 as stated fails: with no credentials configured, a forwarded GET whose
target answers 407 gets the response status 407 from `ServeHTTP`. -/
theorem no_credentials_relayed_407 :
    cfgOpen.User = "" ∧ cfgOpen.Password = "" ∧
    (ServeHTTP (main cfgOpen).httpProxy envUpstream407 writerHijackable getPlain).w.status
      = 407 := by
  decide

/-! ## The forward handler relays the response -/

theorem copyHeader_calls_body (h : Header) (w : ResponseWriter) :
    (copyHeader w h).calls = w.calls ∧ (copyHeader w h).body = w.body := by
  rw [copyHeader_rest]
  exact ⟨rfl, rfl⟩

/-- C8, as the code has it: for a request that is not CONNECT and passes
authentication, with a successful round trip `resp` as the transport delivers
it (a status code that `WriteHeader` takes as the status of the response, 101
or 200 to 999; header keys in canonical form; a `Content-Length` that, if
there is one, is a valid length not below the number of body bytes), and a
writer that is unused and has an empty header map, the handler does not panic
and hands `resp` on: the status is `resp.StatusCode` and it is the only
`WriteHeader` call; under every key the header map fixed with the status holds
exactly the values `resp.Header` holds under that key, in the same order; the
header map is not changed after the status is written; and when the status
allows a body, the body written is the bytes of `resp.Body` in order.
`resp.Header` is a Go map, so its keys are distinct; the result holds for
every iteration order. -/
theorem handleHTTP_relays_verbatim (h : httpProxyHandler) (env : Env) (w : ResponseWriter)
    (r : Request) (resp : Response)
    (hpass : (h.auth && authRejected h r) = false) (hm : r.Method ≠ MethodConnect)
    (hrt : env.RoundTrip r = .ok resp) (hw : w.unused) (hh : w.header = [])
    (hnodup : (Header.keys resp.Header).Nodup)
    (hcanon : ∀ k ∈ Header.keys resp.Header, CanonicalMIMEHeaderKey k = k)
    (hcode : resp.StatusCode = 101 ∨ 200 ≤ resp.StatusCode)
    (hmax : resp.StatusCode ≤ 999)
    (hlen : resp.Header.get "Content-Length" = "" ∨
      ∃ n, parseContentLength (resp.Header.get "Content-Length") = some n ∧
        resp.Body.bytes.length ≤ n) :
    (ServeHTTP h env w r).panicked = none ∧
    (ServeHTTP h env w r).w.wroteHeader = true ∧
    (ServeHTTP h env w r).w.status = resp.StatusCode ∧
    (ServeHTTP h env w r).w.calls = [resp.StatusCode] ∧
    (∀ key, (ServeHTTP h env w r).w.sent.index key = resp.Header.index key) ∧
    (ServeHTTP h env w r).w.header = (ServeHTTP h env w r).w.sent ∧
    (bodyAllowedForStatus resp.StatusCode = true →
      (ServeHTTP h env w r).w.body = resp.Body.bytes) ∧
    (ServeHTTP h env w r).effects = [.roundTrip r, .closeBody] := by
  obtain ⟨hw1, hw2, hw3⟩ := hw
  rw [ServeHTTP_pass h env w r hpass, if_neg hm,
    handleHTTP_final env w r resp hrt hw1 hcode hmax]
  obtain ⟨hcalls, hbody⟩ := copyHeader_calls_body resp.Header w
  have hindex : ∀ key, (copyHeader w resp.Header).header.index key = resp.Header.index key := by
    intro key
    rw [copyHeader_index resp.Header w key hnodup hcanon, hh]
    simp [Header.index]
  have hget : (copyHeader w resp.Header).header.get "Content-Length" =
      resp.Header.get "Content-Length" := by
    simp only [Header.get, hindex]
  have hv : (copyHeader w resp.Header).header.get "Content-Length" = "" ∨
      ∃ n, parseContentLength ((copyHeader w resp.Header).header.get "Content-Length")
        = some n := by
    rw [hget]
    rcases hlen with h1 | ⟨n, h1, _⟩
    · exact Or.inl h1
    · exact Or.inr ⟨n, h1⟩
  have hfix := fixResponse_valid (copyHeader w resp.Header) resp.StatusCode hv
  obtain ⟨f1, f2, f3, f4, f5, _⟩ := fixResponse_obs (copyHeader w resp.Header) resp.StatusCode
  obtain ⟨w1, h3, g1, g2, g3, g4, g5⟩ := copyChunks_written_obs resp.Body.chunks
    ((copyHeader w resp.Header).fixResponse resp.StatusCode) f1
  have hsame : ((copyHeader w resp.Header).fixResponse resp.StatusCode).header =
      (copyHeader w resp.Header).header := by
    rw [hfix]
  have hout : Outcome.ofResult
      (Copy ((copyHeader w resp.Header).fixResponse resp.StatusCode) resp.Body)
      [.roundTrip r, .closeBody] =
      { w := w1, effects := [.roundTrip r, .closeBody], tunnel := none, panicked := none } := by
    simp only [Copy, h3, Outcome.ofResult]
  rw [hout]
  refine ⟨rfl, g1, g2.trans f2, ?_, ?_, ?_, ?_, rfl⟩
  · rw [g5, f4, hcalls, hw2]
    rfl
  · intro key
    show w1.sent.index key = resp.Header.index key
    rw [g3, f3]
    exact hindex key
  · show w1.header = w1.sent
    rw [g4, g3, f3, hsame]
  · intro ha
    obtain ⟨w2, k1, k2⟩ := copyChunks_body resp.Body.chunks
      ((copyHeader w resp.Header).fixResponse resp.StatusCode)
      { status := resp.StatusCode, header := (copyHeader w resp.Header).header,
        contentLength :=
          if (copyHeader w resp.Header).header.get "Content-Length" = "" then none
          else parseContentLength ((copyHeader w resp.Header).header.get "Content-Length"),
        written := 0 }
      (by rw [hfix]) ha (by
        intro n hn
        rw [hget] at hn
        rcases hlen with h1 | ⟨m, h1, h2⟩
        · simp [h1] at hn
        · by_cases h0 : resp.Header.get "Content-Length" = ""
          · simp [h0] at hn
          · simp only [h0, if_false, h1, Option.some.injEq] at hn
            rw [← hn]
            show 0 + (String.mk (resp.Body.chunks.map String.data).flatten).length ≤ m
            have h4 : (String.mk (resp.Body.chunks.map String.data).flatten).length ≤ m := h2
            omega)
    have h8 := h3.symm.trans k1
    injection h8 with h8
    show w1.body = resp.Body.bytes
    rw [h8, k2, f5, hbody, hw3]
    apply String.ext
    simp [Body.bytes]

/-- C8, at a concrete input: a GET with valid credentials through the secured
handler, answered by a page with status 200, a declared length, two cookies
and a body in two chunks. -/
theorem handleHTTP_relays_verbatim_witness :
    (ServeHTTP (main cfgSecured).httpProxy envPage writerHijackable
        getWithAuthorization).panicked = none ∧
    (ServeHTTP (main cfgSecured).httpProxy envPage writerHijackable
        getWithAuthorization).w.status = 200 ∧
    (ServeHTTP (main cfgSecured).httpProxy envPage writerHijackable
        getWithAuthorization).w.sent.index "Set-Cookie" = ["a=1", "b=2"] ∧
    (ServeHTTP (main cfgSecured).httpProxy envPage writerHijackable
        getWithAuthorization).w.body = "<html></html>" := by
  have key := handleHTTP_relays_verbatim (main cfgSecured).httpProxy envPage
    writerHijackable getWithAuthorization pageResponse
    (by decide) (by decide) rfl (by decide) rfl (by decide) (by decide) (by decide)
    (by decide) (Or.inr ⟨13, by decide, by decide⟩)
  exact ⟨key.1, key.2.2.1, key.2.2.2.2.1 "Set-Cookie",
    (key.2.2.2.2.2.2.1 (by decide)).trans (by decide)⟩

/-- C8 as stated fails. A target that answers with the status line
`HTTP/1.1 000` and the body `hi`: `WriteHeader(0)` at line 85 panics, so no
status is written and no body byte is relayed. A target that answers
`101 Switching Protocols` and then sends `frame`: the status is relayed, the
bytes are not, since a 101 response allows no body. A response value that
declares one byte and delivers five: the write goes over the declared length
and nothing is written. A response whose header map has the key `x-a`: `Header.Add` at line 82 stores its value under `X-A`,
so the key `x-a` is dropped and the key `X-A` is added. -/
theorem forward_not_verbatim :
    (ServeHTTP (main cfgOpen).httpProxy envUpstream000 writerHijackable getPlain).panicked
      = some 0 ∧
    (ServeHTTP (main cfgOpen).httpProxy envUpstream000 writerHijackable getPlain).w.wroteHeader
      = false ∧
    (ServeHTTP (main cfgOpen).httpProxy envUpstream000 writerHijackable getPlain).w.body
      = "" ∧
    (ServeHTTP (main cfgOpen).httpProxy envUpstream101 writerHijackable getPlain).w.status
      = 101 ∧
    (ServeHTTP (main cfgOpen).httpProxy envUpstream101 writerHijackable getPlain).w.body
      = "" ∧
    (ServeHTTP (main cfgOpen).httpProxy envShortLength writerHijackable getPlain).w.status
      = 200 ∧
    (ServeHTTP (main cfgOpen).httpProxy envShortLength writerHijackable getPlain).w.body
      = "" ∧
    (ServeHTTP (main cfgOpen).httpProxy envLowerCaseKey writerHijackable getPlain).w.status
      = 200 ∧
    (ServeHTTP (main cfgOpen).httpProxy envLowerCaseKey writerHijackable
      getPlain).w.sent.index "x-a" = [] ∧
    (ServeHTTP (main cfgOpen).httpProxy envLowerCaseKey writerHijackable
      getPlain).w.sent.index "X-A" = ["1"] := by
  decide

/-! ## The two engines are configured from the same credentials -/

theorem append_ne_empty_iff (a b : String) : a ++ b ≠ "" ↔ a ≠ "" ∨ b ≠ "" := by
  have h : ∀ s : String, s = "" ↔ s.data = [] := by
    intro s
    constructor
    · intro e; rw [e]
    · intro e; apply String.ext; rw [e]
  rw [Ne, h (a ++ b), Ne, h a, Ne, h b, String.data_append, List.append_eq_nil]
  tauto

theorem Valid_single (user password u p : String) :
    socks5.StaticCredentials.Valid [(user, password)] u p = (u == user && p == password) := by
  unfold socks5.StaticCredentials.Valid
  by_cases h : u = user
  · subst h
    simp [List.lookup]
  · have h2 : (u == user) = false := by simpa using h
    simp [List.lookup, h2]

/-- C4: for every configuration, the SOCKS5 configuration (and the server made
from it) has a username/password authenticator exactly when the HTTP handler's
`auth` flag is true, which is exactly when `User` or `Password` is non-empty;
the credentials map of that authenticator is the single entry
`user ↦ password` of the HTTP handler, which are `cfg.User` and
`cfg.Password`; and the map accepts a presented pair exactly when the
comparison of line 33 accepts it. -/
theorem main_engines_agree_on_auth (cfg : params) :
    ((∃ creds, socks5.Authenticator.UserPassAuthenticator creds ∈
        (main cfg).socks5conf.AuthMethods) ↔ (main cfg).httpProxy.auth = true) ∧
    ((∃ creds, socks5.Authenticator.UserPassAuthenticator creds ∈
        (main cfg).socks5Server.AuthMethods) ↔ (main cfg).httpProxy.auth = true) ∧
    ((main cfg).httpProxy.auth = true ↔ (cfg.User ≠ "" ∨ cfg.Password ≠ "")) ∧
    (main cfg).httpProxy.user = cfg.User ∧
    (main cfg).httpProxy.password = cfg.Password ∧
    (∀ creds, socks5.Authenticator.UserPassAuthenticator creds ∈
        (main cfg).socks5Server.AuthMethods →
      creds = [((main cfg).httpProxy.user, (main cfg).httpProxy.password)] ∧
      ∀ u p, socks5.StaticCredentials.Valid creds u p =
        !credentialsRejected (main cfg).httpProxy (u, p, true)) := by
  rw [main_socks5Server_AuthMethods, main_AuthMethods, main_httpProxy]
  by_cases h : cfg.User ++ cfg.Password = ""
  · have h3 : ¬ (cfg.User ≠ "" ∨ cfg.Password ≠ "") := by
      rw [← append_ne_empty_iff]; simpa using h
    simp [h, h3]
  · have h3 : cfg.User ≠ "" ∨ cfg.Password ≠ "" := by
      rw [← append_ne_empty_iff]; exact h
    simp only [h, ne_eq, not_false_eq_true, if_true, List.mem_singleton, decide_True, true_iff]
    refine ⟨⟨fun _ => trivial, fun _ => ⟨_, rfl⟩⟩, ⟨fun _ => trivial, fun _ => ⟨_, rfl⟩⟩,
      ?_, trivial, trivial, ?_⟩
    · simpa using h3
    · intro creds hc
      injection hc with hc
      subst hc
      refine ⟨rfl, ?_⟩
      intro u p
      rw [Valid_single]
      cases h1 : u == cfg.User <;> cases h2 : p == cfg.Password <;>
        simp [credentialsRejected, bne, h1, h2]

/-! ## The destination filter -/

theorem globMatch_sound (p host : List Char) (hm : globMatch p host = true) :
    GlobMatches p host := by
  induction p generalizing host with
  | nil =>
    have : host = [] := by simpa [globMatch] using hm
    rw [this]
    exact GlobMatches.done
  | cons a p ih =>
    by_cases ha : a = '*'
    · subst ha
      simp only [globMatch, if_true, List.any_eq_true, List.mem_tails] at hm
      obtain ⟨suffix, ⟨run, hrun⟩, hs⟩ := hm
      rw [← hrun]
      exact GlobMatches.star p run suffix (ih suffix hs)
    · cases host with
      | nil => simp [globMatch, ha] at hm
      | cons c rest =>
        simp only [globMatch, ha, if_false, Bool.and_eq_true, Bool.or_eq_true,
          decide_eq_true_eq, beq_iff_eq] at hm
        obtain ⟨hhead, hrest⟩ := hm
        by_cases hq : a = '?'
        · subst hq
          exact GlobMatches.single p c rest (ih rest hrest)
        · rcases hhead with h1 | h1
          · exact absurd h1 hq
          · exact GlobMatches.literal a p c rest ha hq h1 (ih rest hrest)

theorem globMatch_complete (p host : List Char) (hm : GlobMatches p host) :
    globMatch p host = true := by
  induction hm with
  | done => rfl
  | star p run rest _ ih =>
    simp only [globMatch, if_true, List.any_eq_true, List.mem_tails]
    exact ⟨rest, ⟨run, rfl⟩, ih⟩
  | single p c rest _ ih =>
    have h1 : ¬ ('?' = '*') := by decide
    simp [globMatch, h1, ih]
  | literal a p c rest ha hq hl _ ih =>
    simp [globMatch, ha, hq, hl, ih]

theorem globMatch_iff (p host : List Char) : globMatch p host = true ↔ GlobMatches p host :=
  ⟨globMatch_sound p host, globMatch_complete p host⟩

theorem main_Rules (cfg : params) :
    (main cfg).socks5conf.Rules =
      if cfg.AllowedDestFqdn ≠ "" then some (PermitDestAddrPattern cfg.AllowedDestFqdn)
      else none := by
  by_cases h : cfg.User ++ cfg.Password = "" <;>
    by_cases h2 : cfg.AllowedDestFqdn = "" <;>
      simp [main, configureAuth, configureRules, h, h2]

theorem New_Rules (conf : socks5.Config) :
    (socks5.New conf).Rules = some (conf.Rules.getD socks5.PermitAll) := by
  cases hr : conf.Rules <;> simp [socks5.New, hr]

/-- C6: when `ALLOWED_DEST_FQDN` is a non-empty pattern `P`, the rule set of
the SOCKS5 server allows a request exactly when its destination host
glob-matches `P` case-insensitively, whatever the port; when it is empty,
`main` sets no rule set and the server allows every host (for the three
commands of the protocol). -/
theorem destination_filter_is_glob (cfg : params) (req : socks5.Request) :
    (cfg.AllowedDestFqdn ≠ "" →
      ((main cfg).socks5Server.Allow req = true ↔
        GlobMatches cfg.AllowedDestFqdn.data req.DestAddr.FQDN.data) ∧
      ∀ port, (main cfg).socks5Server.Allow
        { req with DestAddr := { req.DestAddr with Port := port } } =
          (main cfg).socks5Server.Allow req) ∧
    (cfg.AllowedDestFqdn = "" →
      (main cfg).socks5conf.Rules.isNone = true ∧
      ((req.Command = 1 ∨ req.Command = 2 ∨ req.Command = 3) →
        (main cfg).socks5Server.Allow req = true)) := by
  have h1 : (main cfg).socks5Server = socks5.New (main cfg).socks5conf := rfl
  have hallow : (main cfg).socks5Server.Allow =
      fun q => ((main cfg).socks5conf.Rules.getD socks5.PermitAll) q := by
    funext q
    simp [socks5.Config.Allow, h1, New_Rules]
  rw [hallow, main_Rules]
  refine ⟨?_, ?_⟩
  · intro hne
    simp only [hne, ne_eq, not_false_eq_true, if_true, Option.getD_some, PermitDestAddrPattern]
    refine ⟨globMatch_iff _ _, ?_⟩
    intro _
    trivial
  · intro he
    simp only [he, ne_eq, not_true_eq_false, if_false, Option.getD_none, Option.isNone_none,
      true_and]
    intro hc
    simp only [socks5.PermitAll, Bool.or_eq_true, decide_eq_true_eq]
    tauto

/-- C6, at a concrete input: the pattern `*.example.com` and the host
`Allowed.Example.COM`. -/
theorem destination_filter_is_glob_witness :
    (main cfgSecured).socks5Server.Allow socksConnectAllowed = true ∧
    GlobMatches "*.example.com".data "Allowed.Example.COM".data :=
  ⟨by decide,
   ((destination_filter_is_glob cfgSecured socksConnectAllowed).1 (by decide)).1.1
     (by decide)⟩

/-! ## The HTTP handler and the allow pattern -/

theorem main_httpProxy_ignores_pattern (cfg : params) (pattern : String) :
    (main { cfg with AllowedDestFqdn := pattern }).httpProxy = (main cfg).httpProxy := by
  rw [main_httpProxy, main_httpProxy]

/-- C5: with `ALLOWED_DEST_FQDN` set to `*.example.com` the SOCKS5 rule set
denies `blocked.com`, yet the HTTP handler, given valid credentials, dials
`blocked.com:443` for a CONNECT and answers 200 with a tunnel, and performs
the round trip for a GET to `blocked.com` and relays its 200 response. No 403
is produced: the handler has no allow pattern at all. -/
theorem http_handler_skips_destination_filter :
    cfgSecured.AllowedDestFqdn = "*.example.com" ∧
    (main cfgSecured).socks5Server.Allow socksConnectBlocked = false ∧
    (ServeHTTP (main cfgSecured).httpProxy envReachable writerHijackable
        connectWithAuthorization).w.status = 200 ∧
    (ServeHTTP (main cfgSecured).httpProxy envReachable writerHijackable
        connectWithAuthorization).effects = [.dial "tcp" "blocked.com:443", .hijack] ∧
    (ServeHTTP (main cfgSecured).httpProxy envReachable writerHijackable
        connectWithAuthorization).tunnel = some tunnelBlocked ∧
    (ServeHTTP (main cfgSecured).httpProxy envReachable writerHijackable
        getBlockedWithAuthorization).w.status = 200 ∧
    (ServeHTTP (main cfgSecured).httpProxy envReachable writerHijackable
        getBlockedWithAuthorization).effects =
      [.roundTrip getBlockedWithAuthorization, .closeBody] := by
  decide

/-! ## The relay -/

theorem relayRun_append (t : Tunnel) (events : List RelayEvent) (e : RelayEvent) :
    relayRun t (events ++ [e]) = relayStep (relayRun t events) e := by
  simp [relayRun, List.foldl_append]

theorem relayRun_returned_iff (t : Tunnel) (events : List RelayEvent) :
    ((relayRun t events).returned = true ↔ RelayEvent.targetToClientEnds ∈ events) ∧
    (relayRun t events).clientClosed = (relayRun t events).returned ∧
    (relayRun t events).targetClosed = (relayRun t events).returned := by
  induction events using List.reverseRecOn with
  | nil => simp [relayRun, relayStart]
  | append_singleton events e ih =>
    rw [relayRun_append]
    cases e with
    | clientToTargetEnds =>
      simpa [relayStep] using ih
    | targetToClientEnds =>
      simp [relayStep]

/-- C9: on the tunnel of a CONNECT request, when the client-to-target copy
ends first (the client disconnects, the target stays open), the relay has not
returned and neither connection is closed: `handleConnect` waits for the copy
of line 69. When the target-to-client copy ends, it returns and both
connections are closed. -/
theorem relay_waits_for_target_side :
    (ServeHTTP (main cfgOpen).httpProxy envReachable writerHijackable connectPlain).tunnel
      = some tunnelBlocked ∧
    (relayRun tunnelBlocked [.clientToTargetEnds]).clientToTargetDone = true ∧
    (relayRun tunnelBlocked [.clientToTargetEnds]).returned = false ∧
    (relayRun tunnelBlocked [.clientToTargetEnds]).targetClosed = false ∧
    (relayRun tunnelBlocked [.clientToTargetEnds]).clientClosed = false ∧
    (relayRun tunnelBlocked [.targetToClientEnds]).returned = true ∧
    (relayRun tunnelBlocked [.targetToClientEnds]).targetClosed = true ∧
    (relayRun tunnelBlocked [.targetToClientEnds]).clientClosed = true := by
  decide

end GenericProxy
